import Mathlib

/-!
# Verification of the autocontrol scheduler core

Shallow embedding of the scheduling and channel-allocation core of the
`autocontrol` repository (files `src/autocontrol/atc.py` and
`src/autocontrol/task_container.py`) together with theorems settling the
frozen claims about the natural-language specification.

Modelling conventions:

* Python `float` priorities are modelled as `Rat` (exact arithmetic over the
  values that actually occur); `uuid` values are modelled as `Nat`.
* The three SQLite-backed task stores (`TaskContainer`) are modelled as
  `List Task` in row (insertion) order; SQL queries become list functions.
* Python `set` objects of small non-negative channel integers are modelled as
  ascending duplicate-free lists, matching CPython's iteration order for
  small-integer sets, which the source relies on (e.g. `free_channels[0]`).
* Device I/O (`get_device_and_channel_status`, `execute_task`, `read`) is
  abstracted into oracle fields of the registered device object: each device
  carries the results its HTTP endpoints would return.  Device-internal state
  changes performed by the instruments themselves are invisible to the
  scheduler core and are absorbed into these oracles.
* Free-form metadata (`md`) strings written by `reterror` and friends are
  pure observability; they are not stored on tasks here, and the response
  strings appear as explicit function results instead.  (The only control-flow
  use of `md` in the source is the `'Success.' in execution_response` skip in
  `check_task`, an idempotent re-check optimisation that does not change the
  completion verdict for fixed device statuses.)
* Python exceptions on the dispatch path (`find_free_channels` →
  `pre_process_prepare`/`pre_process_transfer` → `process_task` →
  `queue_execute_one_item`) and the collection path (`post_process_task` →
  `update_active_tasks`) are modelled explicitly: the functions return
  `Except (PyError × AtcState) …`, the error payload carrying the scheduler
  state at the moment of the raise (the Python object is mutated in place, so
  pre-raise mutations persist).  In particular `TaskContainer.find_channels`
  with a non-`None` sample number always raises `sqlite3.ProgrammingError`
  (`task_container.py:108` passes a bare int to `cursor.execute`).  Crash
  points inside boolean predicates that never mutate state (`check_task`, the
  pre-submission status walk, the dead route-check body) read as the
  conservative failure verdict and are noted by comments.
-/

namespace Autocontrol

/-- Execution-state vocabulary, from `status.py` (`class Status(int, Enum)`). -/
inductive Status where
  | success | error | warning | busy | invalid | todo | idle | up | down
deriving DecidableEq, Repr

/-- Task types, from `task_struct.py` (`class TaskType(str, Enum)`). -/
inductive TaskType where
  | none_ | init | prepare | transfer | measure | nochannel | shutdown
deriving DecidableEq, Repr

/-- Sub-task (`task_struct.TaskData`).  Opaque payload fields (`method_data`,
`md`, `acquisition_time`, `wait_for_queue_to_empty`) carry no scheduler-core
control flow and are omitted. -/
structure TaskData where
  id : Nat := 0
  device : String := ""
  channel : Option Nat := none
  device_type : Option String := none
  device_address : Option String := none
  channel_mode : Option String := none
  number_of_channels : Option Nat := none
  simulated : Bool := false
  sample_mixing : Bool := true
  non_channel_storage : Option String := none
deriving DecidableEq, Repr

/-- Top-level task (`task_struct.Task`), minus the opaque `md` payload. -/
structure Task where
  id : Nat := 0
  priority : Option Rat := none
  sample_id : Option Nat := none
  sample_number : Option Int := none
  tasks : List TaskData := []
  task_history : List Nat := []
  task_type : TaskType := TaskType.none_
  dependency_id : Option Nat := none
  dependency_sample_number : Option Int := none
deriving DecidableEq, Repr

/-- Python runtime values compared by the route check in
`queue_execute_one_item`: the keys of `self.devices` are strings, while
`get_future_devices` yields `(device, channel)` tuples.  Python's `==` between
a tuple and a string is `False`; with a tagged value type this is definitional
constructor disjointness. -/
inductive PyVal where
  | str (s : String)
  | pair (device : String) (channel : Option Nat)
deriving DecidableEq, Repr

/-- Python exceptions the embedded code can raise.  An uncaught exception is
carried as an `Except.error` whose payload also records the scheduler state
at the moment of the raise: the Python scheduler object is shared, so every
mutation made before the raise persists even though the call never returns. -/
inductive PyError where
  /-- `sqlite3.ProgrammingError: parameters are of unsupported type` —
  `task_container.py:108` passes a bare int as `cursor.execute` parameters. -/
  | programmingError
  /-- `AttributeError` — attribute access on `None`. -/
  | attributeError
  /-- `TypeError` — e.g. list indexing with `None`. -/
  | typeError
  /-- `IndexError` — list index out of range. -/
  | indexError
  /-- `KeyError` — missing dict key. -/
  | keyError
deriving DecidableEq, Repr

/-! ## Ascending-set helpers (CPython small-int set iteration order) -/

/-- Insert a channel number into an ascending duplicate-free list. -/
def insertAsc (n : Nat) : List Nat → List Nat
  | [] => [n]
  | m :: ms =>
    if n < m then n :: m :: ms
    else if n = m then m :: ms
    else m :: insertAsc n ms

/-- Turn an arbitrary channel list into the ascending duplicate-free list a
CPython `set` of small non-negative ints iterates as. -/
def setAsc (l : List Nat) : List Nat := l.foldr insertAsc []

/-! ## Task store (`task_container.TaskContainer`)

A store is a `List Task` in SQLite row order (rowid ascending = insertion
order).  `put` appends, `remove`/`replace` work on the projected `task_id`
column. -/

/-- `TaskContainer.put`: insert one row at the end of the table. -/
def containerPut (store : List Task) (task : Task) : List Task := store ++ [task]

/-- `TaskContainer.remove(task_id=...)`: `DELETE FROM task_table WHERE task_id=:id`. -/
def containerRemove (store : List Task) (task_id : Nat) : List Task :=
  store.filter (fun t => t.id ≠ task_id)

/-- `TaskContainer.replace`: `remove(task_id)` followed by `put(task)`. -/
def containerReplace (store : List Task) (task : Task) (task_id : Nat) : List Task :=
  containerPut (containerRemove store task_id) task

/-- `TaskContainer.get_task_by_id`: first row with the given `task_id`. -/
def getTaskById (store : List Task) (task_id : Nat) : Option Task :=
  store.find? (fun t => t.id = task_id)

/-- `TaskContainer.get_task_by_sample_number` (with `single=False`): all rows
with the sample number, or `None` when there are none. -/
def getTaskBySampleNumber (store : List Task) (sample_number : Int) :
    Option (List Task) :=
  let l := store.filter (fun t => t.sample_number = some sample_number)
  if l.isEmpty then none else some l

/-- `TaskContainer.get_lowest_sample_number`: `SELECT MIN(sample_number)`,
ignoring NULLs, `None` on an empty column. -/
def getLowestSampleNumber (store : List Task) : Option Int :=
  (store.filterMap (fun t => t.sample_number)).foldr
    (fun n acc => match acc with
      | none => some n
      | some m => some (min n m)) none

/-- The `sample_number is None` branch of `TaskContainer.find_channels`
(`task_container.py:109-127`): plain `SELECT task FROM task_table`, then the
set of non-null channels of sub-tasks matching the optional device-name
filter, iterated in CPython small-int set order (ascending). -/
def findChannelsAll (store : List Task) (device_name : Option String) : List Nat :=
  setAsc <| store.foldr (fun t acc =>
    (t.tasks.filterMap (fun st =>
      if device_name = none ∨ some st.device = device_name then st.channel
      else none)) ++ acc) []

/-- `TaskContainer.find_channels(sample_number, device_name)`.  When
`sample_number` is not `None`, the source runs
`cursor.execute(query, sample_number)` with a *bare int* as the parameter set
(`task_container.py:108`), which raises
`sqlite3.ProgrammingError: parameters are of unsupported type` before any row
is read; the sample-filtered channel set is never computed.  Only the
`sample_number is None` branch returns. -/
def findChannels (store : List Task) (sample_number : Option Int)
    (device_name : Option String) : Except PyError (List Nat) :=
  match sample_number with
  | some _ => Except.error PyError.programmingError
  | none => Except.ok (findChannelsAll store device_name)

/-- `TaskContainer.find_interference`: some sub-task's chosen channel is among
the busy channels of its device in this store.  The `find_channels` call
passes only `device_name` (`sample_number=None`), i.e. the non-raising
branch.  A `None` channel never matches (`None in [ints]` is `False` in
Python). -/
def findInterference (store : List Task) (task : Task) : Bool :=
  task.tasks.any (fun st =>
    match st.channel with
    | none => false
    | some c => c ∈ findChannelsAll store (some st.device))

/-- Priority-column ordering for `ORDER BY priority DESC`: SQL NULLs sort as
the smallest values. -/
def priLt (a b : Option Rat) : Bool :=
  match a, b with
  | none, none => false
  | none, some _ => true
  | some _, none => false
  | some x, some y => decide (x < y)

/-- Row selected by `ORDER BY priority DESC LIMIT 1` from a filtered row list:
the earliest row whose priority no later row exceeds (SQLite scans rowids in
ascending order, keeping the first maximum). -/
def pickByPriority : List Task → Option Task
  | [] => none
  | t :: ts =>
    match pickByPriority ts with
    | none => some t
    | some u => if priLt t.priority u.priority then some u else some t

/-- Row filter of `get_and_remove_by_priority(task_type, remove,
blocked_samples)` as called with a task-type list and a (possibly empty)
blocked list: `task_type IN (...) AND sample_number NOT IN (...)`.  Rows with
NULL `sample_number` are excluded by SQL three-valued logic (`NULL NOT IN
(...)` is never true). -/
def eligibleRow (types : List TaskType) (blocked : List Int) (t : Task) : Bool :=
  decide (t.task_type ∈ types) &&
    match t.sample_number with
    | none => false
    | some n => decide (n ∉ blocked)

/-- `TaskContainer.get_and_remove_by_priority` with `remove=False` (the only
mode `queue_execute_one_item` uses): highest-priority eligible row. -/
def getByPriority (store : List Task) (types : List TaskType)
    (blocked : List Int) : Option Task :=
  pickByPriority (store.filter (eligibleRow types blocked))

/-- One sub-task step of the `get_future_devices` walk: record the
`(device, channel)` tuple in the result set and move the current position. -/
def futureStepEntry (a : List PyVal × String × Option Nat) (st : TaskData) :
    List PyVal × String × Option Nat :=
  let entry := PyVal.pair st.device st.channel
  ((if entry ∈ a.1 then a.1 else a.1 ++ [entry]), st.device, st.channel)

/-- One transfer-row step of the `get_future_devices` walk: follow the row
when its first sub-task matches the current `(device, channel)` position. -/
def futureStep (acc : List PyVal × String × Option Nat) (t : Task) :
    List PyVal × String × Option Nat :=
  match t.tasks with
  | [] => acc  -- Python raises IndexError at `task.tasks[0]`
  | st0 :: _ =>
    if st0.device = acc.2.1 ∧ (acc.2.2 = none ∨ acc.2.2 = st0.channel) then
      t.tasks.foldl futureStepEntry acc
    else acc

/-- `TaskContainer.get_future_devices(sample_number, device_name, channel)`:
walk the stored `transfer` rows of the sample in row order, following the
first chain whose head matches the current `(device, channel)` position, and
collect the `(device, channel)` pairs passed through (a Python `set` of
tuples; duplicates collapse). -/
def getFutureDevices (store : List Task) (sample_number : Int)
    (device_name : String) (channel : Option Nat) : List PyVal :=
  let rows := store.filter
    (fun t => t.sample_number = some sample_number ∧ t.task_type = TaskType.transfer)
  (rows.foldl futureStep ([], device_name, channel)).1

/-! ## Device abstraction (`device.py` and subclasses)

The scheduler core consumes: `number_of_channels`, `channel_mode`, `passive`,
`get_device_and_channel_status()`, `execute_task(subtask, task_type)` and
`read(channel)`.  The latter three perform device I/O; their results are
oracle fields of the device object (fixed for the instant under analysis). -/

structure Device where
  name : String := ""
  address : Option String := none
  simulated : Bool := false
  number_of_channels : Nat := 1
  channel_mode : Option String := none
  passive : Bool := false
  /-- Oracle for `get_device_and_channel_status()`:
  `(request_status, device_status, channel_status_list)`. -/
  status : Status × Status × List Status := (Status.success, Status.idle, [Status.idle])
  /-- Oracle for `execute_task(subtask, task_type)`: `(status, response)`. -/
  execute : TaskData → TaskType → Status × String := fun _ _ => (Status.success, "")
  /-- Oracle for `read(channel)`: `(status, data)` with opaque data. -/
  readData : Option Nat → Status × String := fun _ => (Status.success, "")

/-- Device registry entry built by `pre_process_init`:
`{device_object, device_type, device_address, sample_mixing}`. -/
structure DeviceEntry where
  device_object : Device := {}
  device_type : String := ""
  device_address : Option String := none
  sample_mixing : Bool := true

/-- The scheduler state owned by `class autocontrol` (fields of `atc.py`'s
`autocontrol.__init__`).  Python dicts keyed by strings become association
lists in insertion order. -/
structure AtcState where
  /-- `self.queue`: the scheduled (priority) store. -/
  queue : List Task := []
  /-- `self.active_tasks`: the active store. -/
  active_tasks : List Task := []
  /-- `self.sample_history`: the history store. -/
  sample_history : List Task := []
  /-- `self.sample_id_to_number`: sample id → sample number. -/
  sample_id_to_number : List (Nat × Int) := []
  /-- `self.devices`: device name → registry entry. -/
  devices : List (String × DeviceEntry) := []
  /-- `self.channel_po`: device name → channel physical occupancy slots. -/
  channel_po : List (String × List (Option Task)) := []
  /-- `self.paused`: dispatch gate. -/
  paused : Bool := false

/-- Python-dict lookup on an insertion-ordered association list. -/
def alistGet {κ α : Type} [DecidableEq κ] (l : List (κ × α)) (key : κ) : Option α :=
  (l.find? (fun kv => kv.1 = key)).map (fun kv => kv.2)

/-- Python-dict assignment `d[key] = v`: overwrite in place if the key exists,
else append. -/
def alistSet {κ α : Type} [DecidableEq κ] (l : List (κ × α)) (key : κ) (v : α) :
    List (κ × α) :=
  if l.any (fun kv => kv.1 = key) then
    l.map (fun kv => if kv.1 = key then (key, v) else kv)
  else l ++ [(key, v)]

/-- In-range list update (`lst[i] = v`); Python raises `IndexError` out of
range, where this is a no-op. -/
def listSet {α : Type} (l : List α) (i : Nat) (v : α) : List α :=
  l.set i v

/-- `autocontrol.get_device_object`: `self.devices[name]['device_object']`,
`None` when the name is not registered. -/
def get_device_object (s : AtcState) (name : String) : Option Device :=
  (alistGet s.devices name).map (fun e => e.device_object)

/-! ## Channel occupancy and channel selection (`atc.py`) -/

/-- `autocontrol.get_channel_information_from_active_tasks`: busy channels of
the device from the active store (`find_channels(device_name=...)`, the
non-raising `sample_number=None` branch), free channels as the ascending
complement in `range(number_of_channels)`.  (Python raises `AttributeError`
when the device is not registered; the embedding yields no free channels
then.) -/
def get_channel_information_from_active_tasks (s : AtcState) (device_name : String) :
    List Nat × List Nat :=
  let busy_channels := findChannelsAll s.active_tasks (some device_name)
  let noc := match get_device_object s device_name with
    | some d => d.number_of_channels
    | none => 0
  let free_channels := (List.range noc).filter (fun c => c ∉ busy_channels)
  (free_channels, busy_channels)

/-- `autocontrol.get_channel_occupancy`: combine active-task channel use with
the channel physical occupancy (the latter ignored for passive devices). -/
def get_channel_occupancy (s : AtcState) (devicename : String) : List Nat × List Nat :=
  let passive := match get_device_object s devicename with
    | some d => d.passive
    | none => false
  let free_channels := (get_channel_information_from_active_tasks s devicename).1
  let busy_channels := (get_channel_information_from_active_tasks s devicename).2
  match alistGet s.channel_po devicename with
  | some cpo_list =>
    if passive then (free_channels, busy_channels)
    else
      let free_channels_po := (List.range cpo_list.length).filter
        (fun i => cpo_list.getD i none = none)
      let busy_channels_po := (List.range cpo_list.length).filter
        (fun i => cpo_list.getD i none ≠ none)
      (free_channels.filter (fun c => c ∈ free_channels_po),
       setAsc (busy_channels ++ busy_channels_po))
  | none => (free_channels, busy_channels)

/-- `priority > priority` comparison on the optional priorities of two
occupying tasks.  Python raises `TypeError` when either side is `None`; those
pairs compare as not-greater here. -/
def priGt (a b : Option Rat) : Bool :=
  match a, b with
  | some x, some y => decide (y < x)
  | _, _ => false

/-- The history-channel computation of `find_free_channels`:
`hist_channel = sample_history.find_channels(sample_number, device)` then
`act_channel = active_tasks.find_channels(...)` then
`list(set(hist_channel + act_channel))`.  For a non-`None` sample number the
*first* `find_channels` call raises `sqlite3.ProgrammingError`
(`task_container.py:108`), so the set is only ever computed for a `None`
sample number. -/
def histChannelsOf (s : AtcState) (st : TaskData) (n : Option Int) :
    Except PyError (List Nat) :=
  match findChannels s.sample_history n (some st.device) with
  | Except.error e => Except.error e
  | Except.ok hist_channel =>
    match findChannels s.active_tasks n (some st.device) with
    | Except.error e => Except.error e
    | Except.ok act_channel => Except.ok (setAsc (hist_channel ++ act_channel))

/-- `autocontrol.find_free_channels(subtask, sample_number)`: allocate a free
channel respecting the device's `channel_mode`.  Returns
`(success, subtask, response)`, or the uncaught exception raised by the
history-channel lookup: for every non-`None` sample number reaching a
non-`None` `channel_mode`, `find_channels` raises
`sqlite3.ProgrammingError` before the `reuse`/`new` selection runs, so those
branches execute only for a `None` sample number. -/
def find_free_channels (s : AtcState) (subtask : TaskData)
    (sample_number : Option Int) : Except PyError (Bool × TaskData × String) :=
  match get_device_object s subtask.device with
  | none =>
    -- Python raises `AttributeError` on `device.channel_mode` here.
    Except.ok (false, subtask, "Unknown device.")
  | some device =>
    let channel_mode := device.channel_mode
    let free_channels := (get_channel_occupancy s subtask.device).1
    match free_channels with
    | [] => Except.ok (false, subtask, "No free channels available.")
    | f0 :: _ =>
      match channel_mode with
      | none => Except.ok (true, { subtask with channel := some f0 }, "Success.")
      | some mode =>
        match histChannelsOf s subtask sample_number with
        | Except.error e => Except.error e
        | Except.ok hist_channel =>
          if mode = "reuse" then
            match hist_channel with
            | [] => Except.ok (true, { subtask with channel := some f0 }, "Success.")
            | _ :: _ =>
              match hist_channel.find? (fun c => c ∈ free_channels) with
              | some c => Except.ok (true, { subtask with channel := some c }, "Success.")
              | none => Except.ok (false, subtask, "Previously used channel is not free.")
          else if mode = "new" then
            match free_channels.find? (fun c => c ∉ hist_channel) with
            | some c => Except.ok (true, { subtask with channel := some c }, "Success.")
            | none => Except.ok (false, subtask, "No free unused channels.")
          else Except.ok (false, subtask, "Invalid channel mode.")

/-! ## Type-specific pre-processing (`atc.py`)

Each handler returns `(success, task, response, state)`; the source mutates
the task's sub-tasks and `self.channel_po`/`self.devices` in place.  The
`reterror` helper's "; device: …; subtask: …" response suffixes are
observability and are not reproduced. -/

/-- Write sub-task `i`'s channel into the task (`subtask.channel = c` through
the alias into `task.tasks`). -/
def setSubtaskChannel (task : Task) (i : Nat) (c : Nat) : Task :=
  { task with tasks := task.tasks.set i { task.tasks.getD i {} with channel := some c } }

/-- Priority of the task occupying slot `i` of a channel-occupancy list. -/
def slotPriority (cpol : List (Option Task)) (i : Nat) : Option Rat :=
  match cpol.getD i none with
  | some t => t.priority
  | none => none

/-- Channel auto-selection loop of `pre_process_measure`: among the slots
occupied by this sample number, keep the slot whose occupant has the smaller
priority value (the source's comparison `cpol[best_channel].priority >
cpol[i].priority` replaces the running best whenever the candidate's priority
is lower). -/
def measureBestChannel (cpol : List (Option Task)) (sample_number : Option Int) :
    Option Nat :=
  cpol.enum.foldl (fun best (p : Nat × Option Task) =>
    match p.2 with
    | some channel_task =>
      if channel_task.sample_number = sample_number then
        match best with
        | none => some p.1
        | some b =>
          if priGt (slotPriority cpol b) (slotPriority cpol p.1) then some p.1
          else some b
      else best
    | none => best) none

/-- Channel auto-selection loop of `pre_process_transfer` for the source
sub-task (`i == 0`): the source compares against `cpol[i]` — the *sub-task*
index, i.e. slot 0 — instead of the slot index `j` (and raises
`AttributeError` when slot 0 is empty; such comparisons are not-greater
here). -/
def transferBestChannel (cpol : List (Option Task)) (sample_number : Option Int) :
    Option Nat :=
  cpol.enum.foldl (fun best (p : Nat × Option Task) =>
    match p.2 with
    | some channel_task =>
      if channel_task.sample_number = sample_number then
        match best with
        | none => some p.1
        | some b =>
          if priGt (slotPriority cpol b) (slotPriority cpol 0) then some p.1
          else some b
      else best
    | none => best) none

/-- `autocontrol.pre_process_init`: register the device named by the single
sub-task.  The created device object adopts name, address and simulated flag;
its instrument-side fields keep their constructor defaults (the instrument's
own `init` runs later, at dispatch, and is part of the device oracle). -/
def pre_process_init (s : AtcState) (task : Task) : Bool × Task × String × AtcState :=
  let subtask := task.tasks.headD {}  -- `task.tasks[0]`; empty raises IndexError
  let device_name := subtask.device
  let device_type := subtask.device_type.getD ""
  let device_address := subtask.device_address
  let simulated := subtask.simulated
  let sample_mixing := subtask.sample_mixing
  if device_type = "injection" ∨ device_type = "INJECTION" ∨
     device_type = "lh" ∨ device_type = "LH" ∨
     device_type = "qcmd" ∨ device_type = "QCMD" then
    let device_object : Device :=
      { name := device_name, address := device_address, simulated := simulated }
    let entry : DeviceEntry :=
      { device_object := device_object, device_type := device_type,
        device_address := device_address, sample_mixing := sample_mixing }
    (true, task, "Success.", { s with devices := alistSet s.devices device_name entry })
  else (false, task, "Unknown device.", s)

/-- `autocontrol.pre_process_measure`. -/
def pre_process_measure (s : AtcState) (task : Task) : Bool × Task × String × AtcState :=
  if task.tasks.length > 1 then
    (false, task, "Multiple measurements per task not supported.", s)
  else
    let subtask := task.tasks.headD {}  -- `task.tasks[0]`; empty raises IndexError
    match alistGet s.channel_po subtask.device with
    | none => (false, task, "Device not intialized.", s)
    | some cpol =>
      if subtask.non_channel_storage ≠ none ∧ subtask.channel ≠ none then
        (false, task, "Channel and non-channel storage simultaneously provided.", s)
      else
        let sample_number := task.sample_number
        match subtask.channel with
        | some ch =>
          if ¬ ch < cpol.length then (false, task, "Invalid channel number.", s)
          else
            match cpol.getD ch none with
            | none =>
              -- A measurement with a manual channel number can create a new sample
              let cpol' := listSet cpol ch (some task)
              (true, task, "Success. Created sample on measurement.",
               { s with channel_po := alistSet s.channel_po subtask.device cpol' })
            | some occupant =>
              if occupant.sample_number ≠ sample_number then
                (false, task, "Wrong sample in measurement channel.", s)
              else (true, task, "Success.", s)
        | none =>
          match subtask.non_channel_storage with
          | some _ => (true, task, "Success. Non-channel measurement has no checks.", s)
          | none =>
            match measureBestChannel cpol sample_number with
            | none => (false, task, "Did not find the sample to measure.", s)
            | some best_channel =>
              (true, setSubtaskChannel task 0 best_channel, "Success.", s)

/-- `autocontrol.pre_process_prepare`.  An exception from `find_free_channels`
propagates uncaught; no state mutation precedes it here. -/
def pre_process_prepare (s : AtcState) (task : Task) :
    Except (PyError × AtcState) (Bool × Task × String × AtcState) :=
  if task.tasks.length > 1 then
    Except.ok (false, task, "Multiple preparations per task not supported.", s)
  else
    let subtask := task.tasks.headD {}  -- `task.tasks[0]`; empty raises IndexError
    match alistGet s.channel_po subtask.device with
    | none => Except.ok (false, task, "Device not intialized.", s)
    | some _ =>
      if subtask.channel ≠ none then
        -- no check if manual channel is already occupied and with what
        Except.ok (true, task, "Success.", s)
      else
        match find_free_channels s subtask task.sample_number with
        | Except.error e => Except.error (e, s)
        | Except.ok r =>
          match r.2.1.channel with
          | some c => Except.ok (r.1, setSubtaskChannel task 0 c, r.2.2, s)
          | none => Except.ok (r.1, task, r.2.2, s)

/-- `autocontrol.pre_process_transfer`: iterate the sub-tasks in order,
threading sub-task channel assignments and the occupancy write of the
source sub-task.  An exception from `find_free_channels` propagates uncaught;
occupancy writes made for earlier sub-tasks persist in the raise state. -/
def pre_process_transfer_loop (s : AtcState) (task : Task) (i : Nat) (fuel : Nat) :
    Except (PyError × AtcState) (Bool × Task × String × AtcState) :=
  match fuel with
  | 0 => Except.ok (true, task, "Success.", s)
  | fuel + 1 =>
    if i < task.tasks.length then
      let subtask := task.tasks.getD i {}
      match alistGet s.channel_po subtask.device with
      | none => Except.ok (false, task, "Device not intialized.", s)
      | some cpol =>
        if subtask.non_channel_storage ≠ none ∧ subtask.channel ≠ none then
          Except.ok (false, task,
           "Transfer rejected. Channel and non-channel storage simultaneously provided.", s)
        else
          match get_device_object s subtask.device with
          | none =>
            -- Python raises AttributeError on `device_obj.passive` below.
            Except.ok (false, task, "Unknown device.", s)
          | some device_obj =>
            if i = 0 ∧ device_obj.passive then
              Except.ok (false, task, "Passive device {} cannot initiate transfer.", s)
            else
              let sample_number := task.sample_number
              match subtask.channel with
              | some ch =>
                if ¬ ch < cpol.length then
                  Except.ok (false, task, "Invalid channel number.", s)
                else if i = 0 then
                  match cpol.getD ch none with
                  | none =>
                    -- A transfer with a manual channel number can create a new sample
                    let cpol' := listSet cpol ch (some task)
                    let s' := { s with
                      channel_po := alistSet s.channel_po subtask.device cpol' }
                    pre_process_transfer_loop s' task (i + 1) fuel
                  | some occupant =>
                    if occupant.sample_number ≠ sample_number then
                      Except.ok (false, task, "Wrong sample in source channel.", s)
                    else pre_process_transfer_loop s task (i + 1) fuel
                else if ¬ device_obj.passive then
                  match cpol.getD ch none with
                  | some _ => Except.ok (false, task, "Device channel not empty.", s)
                  | none => pre_process_transfer_loop s task (i + 1) fuel
                else pre_process_transfer_loop s task (i + 1) fuel
              | none =>
                match subtask.non_channel_storage with
                | some _ =>
                  -- Non-channel transfer has no checks.
                  pre_process_transfer_loop s task (i + 1) fuel
                | none =>
                  if i = 0 then
                    match transferBestChannel cpol sample_number with
                    | none =>
                      Except.ok (false, task,
                        "Channel auto-select did not find the sample to transfer.", s)
                    | some best_channel =>
                      pre_process_transfer_loop s (setSubtaskChannel task i best_channel)
                        (i + 1) fuel
                  else
                    match find_free_channels s subtask sample_number with
                    | Except.error e => Except.error (e, s)
                    | Except.ok r =>
                      if r.1 then
                        match r.2.1.channel with
                        | some c =>
                          pre_process_transfer_loop s (setSubtaskChannel task i c) (i + 1) fuel
                        | none => pre_process_transfer_loop s task (i + 1) fuel
                      else Except.ok (false, task, r.2.2, s)
    else Except.ok (true, task, "Success.", s)

/-- `autocontrol.pre_process_transfer`. -/
def pre_process_transfer (s : AtcState) (task : Task) :
    Except (PyError × AtcState) (Bool × Task × String × AtcState) :=
  pre_process_transfer_loop s task 0 task.tasks.length

/-! ## Dispatch (`autocontrol.process_task`) -/

/-- Pre-submission device/channel status check of `process_task` (skipped for
`init` tasks): walk the sub-tasks in order and return the first failure
response, `none` when all pass.  Out-of-range channel indexing into the
channel-status list raises `IndexError` in Python; it reads as `error`
(a failure) here. -/
def preSubmissionCheck (s : AtcState) : List TaskData → Option String
  | [] => none
  | subtask :: rest =>
    match get_device_object s subtask.device with
    | none => some "Unknown device"
    | some device =>
      let (request_status, device_status, channel_status) := device.status
      if request_status ≠ Status.success then
        some "Could not get status from device."
      else if ¬ (device_status = Status.up ∨ device_status = Status.idle) then
        some "Waiting. Device status is busy/down."
      else
        match subtask.channel with
        | some ch =>
          let st := channel_status.getD ch Status.error
          if st ≠ Status.up ∧ st ≠ Status.idle then
            some "Waiting. Channel status is busy/down."
          else preSubmissionCheck s rest
        | none => preSubmissionCheck s rest

/-- The `task_handlers` dictionary dispatch of `process_task` (entries with a
`None` handler — `shutdown` and `nochannel` — succeed without checks; a task
type outside the dictionary — `none` — is rejected as unknown).  Exceptions
raised by the `prepare`/`transfer` handlers propagate uncaught. -/
def processTaskHandlers (s : AtcState) (task : Task) :
    Except (PyError × AtcState) (Bool × Task × String × AtcState) :=
  match task.task_type with
  | TaskType.init => Except.ok (pre_process_init s task)
  | TaskType.shutdown =>
    Except.ok (true, task, "Success. No check performed for this task type.", s)
  | TaskType.transfer => pre_process_transfer s task
  | TaskType.prepare => pre_process_prepare s task
  | TaskType.measure => Except.ok (pre_process_measure s task)
  | TaskType.nochannel =>
    Except.ok (true, task, "Success. No check performed for this task type.", s)
  | TaskType.none_ => Except.ok (false, task, "Unknown task type.", s)

/-- Interference check and device dispatch tail of `process_task`, applied to
the handler result `(execute_task, task, response, state)`. -/
def processTaskDispatch (origType : TaskType) (r : Bool × Task × String × AtcState) :
    Bool × Task × AtcState :=
  let execute0 := r.1
  let task1 := r.2.1
  let s1 := r.2.2.2
  if execute0 && findInterference s1.active_tasks task1 then
    -- 'Waiting for ongoing task at device or channel to finish.'
    (false, task1, s1)
  else if execute0 then
    let task_success := task1.tasks.all (fun st =>
      match get_device_object s1 st.device with
      | none => false  -- Python raises AttributeError on `device.execute_task`
      | some device => (device.execute st origType).1 = Status.success)
    if task_success then
      (true, task1, { s1 with active_tasks := containerPut s1.active_tasks task1 })
    else
      -- 'Task failed at instrument. See sub-task data.'
      (false, task1, s1)
  else
    -- 'Task not submitted to device because it did not pass pre-checks.'
    (false, task1, s1)

/-- `autocontrol.process_task`: pre-submission checks, type-specific
pre-processing, interference check against the active store, then dispatch of
every sub-task to its device; on total success the task enters the active
store.  Returns `(execute_task, task, state)`, or propagates a handler
exception. -/
def process_task (s : AtcState) (task : Task) :
    Except (PyError × AtcState) (Bool × Task × AtcState) :=
  match (if task.task_type = TaskType.init then none
         else preSubmissionCheck s task.tasks) with
  | some _ => Except.ok (false, task, s)
  | none =>
    match processTaskHandlers s task with
    | Except.error e => Except.error e
    | Except.ok r => Except.ok (processTaskDispatch task.task_type r)

/-- State reached by a handler call: the returned state on a normal return,
the state at the raise on an exception (Python mutates the shared scheduler
object in place, so mutations made before the raise persist). -/
def handlerState (r : Except (PyError × AtcState) (Bool × Task × String × AtcState)) :
    AtcState :=
  match r with
  | Except.error e => e.2
  | Except.ok v => v.2.2.2

/-- Task returned by a handler call; on an exception the caller's `task`
variable is unchanged, so the default `d` stands. -/
def handlerTask (d : Task)
    (r : Except (PyError × AtcState) (Bool × Task × String × AtcState)) : Task :=
  match r with
  | Except.error _ => d
  | Except.ok v => v.2.1

/-- State reached by `process_task`: the returned state, or the state at the
raise when an exception propagates. -/
def processTaskState (r : Except (PyError × AtcState) (Bool × Task × AtcState)) :
    AtcState :=
  match r with
  | Except.error e => e.2
  | Except.ok v => v.2.2

/-- Task returned by `process_task`; on an exception the caller's `task`
variable (the default `d`) is unchanged. -/
def processTaskRet (d : Task)
    (r : Except (PyError × AtcState) (Bool × Task × AtcState)) : Task :=
  match r with
  | Except.error _ => d
  | Except.ok v => v.2.1

/-! ## Collection (`check_task`, `post_process_task`, `update_active_tasks`) -/

/-- `autocontrol.check_task`: a task is ready for collection when every
sub-task's device (channel-less case) or channel reports `idle` or `up` under
a successful status request. -/
def check_task (s : AtcState) (task : Task) : Bool :=
  task.tasks.all (fun subtask =>
    match get_device_object s subtask.device with
    | none => false  -- Python raises AttributeError on the status call
    | some device =>
      let (request_status, device_status, channel_status_list) := device.status
      if request_status ≠ Status.success then false
      else
        match subtask.channel with
        | none => device_status = Status.idle ∨ device_status = Status.up
        | some ch =>
          -- out-of-range indexing raises IndexError in Python
          let channel_status := channel_status_list.getD ch Status.error
          channel_status = Status.idle ∨ channel_status = Status.up)

/-- The shared tail of every successful `post_process_task` branch: remove the
task from the active store and append it (after any `task_history` growth) to
the sample history. -/
def collectTail (s : AtcState) (task : Task) : AtcState :=
  { s with active_tasks := containerRemove s.active_tasks task.id,
           sample_history := containerPut s.sample_history task }

/-- Source-slot step of the transfer branch of `post_process_task`
(`task.tasks[0]`): when the source sub-task carries a channel, read
`self.channel_po[device][channel]` (`KeyError` on an unknown device,
`IndexError` out of range); a non-empty slot appends the occupant's id to
`task_history` and clears the slot. -/
def transferSourceStep (s : AtcState) (task : Task) (st0 : TaskData) :
    Except PyError (Task × AtcState) :=
  match st0.channel with
  | none => Except.ok (task, s)
  | some ch =>
    match alistGet s.channel_po st0.device with
    | none => Except.error PyError.keyError
    | some cpol =>
      if ch < cpol.length then
        match cpol.getD ch none with
        | some p =>
          Except.ok ({ task with task_history := task.task_history ++ [p.id] },
            { s with channel_po := alistSet s.channel_po st0.device (listSet cpol ch none) })
        | none => Except.ok (task, s)
      else Except.error PyError.indexError

/-- Target-slot step of the transfer branch of `post_process_task`
(`task.tasks[-1]`): when the target sub-task carries a channel, write the task
into `self.channel_po[device][channel]` (`KeyError` on an unknown device,
`IndexError` out of range). -/
def transferTargetStep (s : AtcState) (task : Task) (stLast : TaskData) :
    Except PyError AtcState :=
  match stLast.channel with
  | none => Except.ok s
  | some ch =>
    match alistGet s.channel_po stLast.device with
    | none => Except.error PyError.keyError
    | some cpol =>
      if ch < cpol.length then
        Except.ok { s with
          channel_po := alistSet s.channel_po stLast.device (listSet cpol ch (some task)) }
      else Except.error PyError.indexError

/-- `autocontrol.post_process_task`: clean up a completed task, update the
channel physical occupancy, move the task from active to history.  Returns
`(success, state)`.  Every Python crash point is an `Except.error` carrying
the state at the raise: `task.tasks[0]` on an empty sub-task list
(`IndexError`); `device.…` on an unregistered device in the `init`/`measure`
branches (`AttributeError`); and in the occupancy writes
`self.channel_po[device]` (`KeyError`), indexing with a `None` channel
(`TypeError`), an out-of-range channel (`IndexError`), and `.id` of an empty
measure slot (`AttributeError`). -/
def post_process_task (s : AtcState) (task : Task) :
    Except (PyError × AtcState) (Bool × AtcState) :=
  match task.tasks with
  | [] => Except.error (PyError.indexError, s)  -- `task.tasks[0]`
  | st0 :: _ =>
    match task.task_type with
    | TaskType.init =>
      match get_device_object s st0.device with
      | none => Except.error (PyError.attributeError, s)  -- `device.number_of_channels`
      | some device =>
        let noc := device.number_of_channels
        let s1 := { s with
          channel_po := alistSet s.channel_po st0.device (List.replicate noc none) }
        Except.ok (true, collectTail s1 task)
    | TaskType.measure =>
      match get_device_object s st0.device with
      | none => Except.error (PyError.attributeError, s)  -- `device.get_device_status()`
      | some device =>
        if device.status.1 ≠ Status.success then
          -- 'Cannot get status from device …'; task stays active
          Except.ok (false,
            { s with active_tasks := containerReplace s.active_tasks task task.id })
        else if device.status.2.1 ≠ Status.idle ∧ device.status.2.1 ≠ Status.up then
          Except.ok (false,
            { s with active_tasks := containerReplace s.active_tasks task task.id })
        else if (device.readData st0.channel).1 ≠ Status.success then
          Except.ok (false,
            { s with active_tasks := containerReplace s.active_tasks task task.id })
        else
          -- `task.task_history.append(self.channel_po[device][channel].id)`
          match alistGet s.channel_po st0.device with
          | none => Except.error (PyError.keyError, s)
          | some cpol =>
            match st0.channel with
            | none => Except.error (PyError.typeError, s)  -- list index is None
            | some ch =>
              if ch < cpol.length then
                match cpol.getD ch none with
                | none => Except.error (PyError.attributeError, s)  -- `None.id`
                | some p =>
                  let task' := { task with task_history := task.task_history ++ [p.id] }
                  let s1 := { s with
                    channel_po := alistSet s.channel_po st0.device
                      (listSet cpol ch (some task')) }
                  Except.ok (true, collectTail s1 task')
              else Except.error (PyError.indexError, s)
    | TaskType.prepare =>
      -- `self.channel_po[device][channel] = task`
      match alistGet s.channel_po st0.device with
      | none => Except.error (PyError.keyError, s)
      | some cpol =>
        match st0.channel with
        | none => Except.error (PyError.typeError, s)  -- list index is None
        | some ch =>
          if ch < cpol.length then
            let s1 := { s with
              channel_po := alistSet s.channel_po st0.device (listSet cpol ch (some task)) }
            Except.ok (true, collectTail s1 task)
          else Except.error (PyError.indexError, s)
    | TaskType.transfer =>
      match transferSourceStep s task st0 with
      | Except.error e => Except.error (e, s)
      | Except.ok r =>
        match transferTargetStep r.2 r.1 (task.tasks.getLastD {}) with
        | Except.error e => Except.error (e, r.2)  -- source clear already persisted
        | Except.ok s2 => Except.ok (true, collectTail s2 r.1)
    | _ =>
      -- nochannel/shutdown/none: no occupancy bookkeeping
      Except.ok (true, collectTail s task)

/-- Loop body of `update_active_tasks` over the `get_all()` snapshot; an
exception from `post_process_task` aborts the loop, keeping the states of the
earlier iterations. -/
def updateLoop : AtcState → List Task → Bool → Except (PyError × AtcState) (Bool × AtcState)
  | s, [], collected => Except.ok (collected, s)
  | s, task :: rest, collected =>
    if check_task s task then
      match post_process_task s task with
      | Except.error e => Except.error e
      | Except.ok r => updateLoop r.2 rest (collected || r.1)
    else
      updateLoop { s with active_tasks := containerReplace s.active_tasks task task.id }
        rest collected

/-- `autocontrol.update_active_tasks`: poll the snapshot of active tasks,
collect the completed ones; returns whether any task was collected. -/
def update_active_tasks (s : AtcState) : Except (PyError × AtcState) (Bool × AtcState) :=
  updateLoop s s.active_tasks false

/-! ## Dispatch loop (`autocontrol.queue_execute_one_item`) -/

/-- Inner loop of the route check: walk the `(device, channel)` entries that
`get_future_devices` produced and return the final `route_ok`.  The source's
membership test `device in self.devices` compares each tuple with the string
keys of the registry (`False` for every entry in Python, constructor
disjointness here); the body below is therefore dead code, carried for
fidelity (were it reached, the source would additionally crash on
`get_device_object(device).number_of_channels` with the tuple argument). -/
def routeLoopOk (s : AtcState) (sample_number : Int) : List PyVal → Bool
  | [] => true
  | entry :: rest =>
    match s.devices.find? (fun kv => PyVal.str kv.1 = entry) with
    | none => routeLoopOk s sample_number rest
    | some kv =>
      -- `self.devices[device]['sample_mixing'] is not None` is always True
      -- (the stored value is a bool), so the body runs unconditionally.
      let num_channels : Int := kv.2.device_object.number_of_channels
      match getLowestSampleNumber s.queue with
      | none => true  -- no other tasks in queue: break with route_ok = True
      | some lowest_sample_number =>
        if sample_number - lowest_sample_number > num_channels - 1 then false
        else routeLoopOk s sample_number rest

/-- Route check of `queue_execute_one_item`: performed when the candidate is
neither `init` nor `shutdown` and some registered device has
`sample_mixing = False`; `True` means the dispatch cycle must be abandoned. -/
def routeCheckAbandons (s : AtcState) (task : Task) : Bool :=
  let route_check :=
    task.task_type ≠ TaskType.init ∧ task.task_type ≠ TaskType.shutdown ∧
      s.devices.any (fun kv => !kv.2.sample_mixing)
  if route_check then
    let st0 := task.tasks.headD {}  -- `task.tasks[0]`; empty raises IndexError
    let device_list_on_route :=
      getFutureDevices s.queue (task.sample_number.getD 0) st0.device st0.channel
      -- `int(task.sample_number)`: a None sample number raises TypeError
    !(routeLoopOk s (task.sample_number.getD 0) device_list_on_route)
  else false

/-- Fixed task-type priority bands of `queue_execute_one_item`. -/
def taskPriorityBands : List (List TaskType) :=
  [[TaskType.init],
   [TaskType.prepare, TaskType.transfer, TaskType.measure, TaskType.nochannel],
   [TaskType.shutdown]]

/-- The `while i < len(task_priority)` loop of `queue_execute_one_item`.
`fuel` bounds the iteration count; every iteration either advances to the
next band or blocks a sample number that was not blocked before, so
`queue length + number of bands + 1` fuel is never exhausted.  An exception
raised inside `process_task` propagates uncaught. -/
def qeoiLoop (s : AtcState) (bands : List (List TaskType)) (blocked : List Int) :
    Nat → Except (PyError × AtcState) (Bool × AtcState)
  | 0 => Except.ok (false, s)
  | fuel + 1 =>
    match bands with
    | [] => Except.ok (false, s)
    | task_type :: rest =>
      match getByPriority s.queue task_type blocked with
      | none =>
        -- no job of this priority found, move on to the next priority band
        qeoiLoop s rest blocked fuel
      | some task =>
        -- task dependency on sample number
        if (match task.dependency_sample_number with
            | some dep => (getTaskBySampleNumber s.queue dep).isSome
            | none => false) then
          Except.ok (false, s)
        -- task dependency on sample id
        else if (match task.dependency_id with
            | some dep => (getTaskById s.queue dep).isSome
            | none => false) then
          Except.ok (false, s)
        -- route check for non-sample-mixing devices
        else if routeCheckAbandons s task then
          Except.ok (false, s)
        else
          match process_task s task with
          | Except.error e => Except.error e
          | Except.ok r =>
            if r.1 then
              Except.ok (true, { r.2.2 with queue := containerRemove r.2.2.queue r.2.1.id })
            else
              let blocked' := match r.2.1.sample_number with
                | some n => blocked ++ [n]
                | none => blocked  -- unreachable: candidates carry a sample number
              qeoiLoop { r.2.2 with queue := containerReplace r.2.2.queue r.2.1 r.2.1.id }
                (task_type :: rest) blocked' fuel

/-- `autocontrol.queue_execute_one_item`: one dispatch attempt. -/
def queue_execute_one_item (s : AtcState) : Except (PyError × AtcState) (Bool × AtcState) :=
  qeoiLoop s taskPriorityBands [] (s.queue.length + taskPriorityBands.length + 1)

/-- State reached by a dispatch or collection attempt: the returned state, or
the state at the raise when an exception propagates out of the call (the
scheduler object is mutated in place, so pre-raise mutations persist). -/
def resultState (r : Except (PyError × AtcState) (Bool × AtcState)) : AtcState :=
  match r with
  | Except.error e => e.2
  | Except.ok v => v.2

/-- Success flag of a dispatch or collection attempt; `none` when the call
raised instead of returning. -/
def resultFlag (r : Except (PyError × AtcState) (Bool × AtcState)) : Option Bool :=
  match r with
  | Except.error _ => none
  | Except.ok v => some v.1

/-! ## Admission (`autocontrol.queue_put`) and lifecycle operations -/

/-- `max(self.sample_id_to_number.values())` over a non-empty map. -/
def maxMapValue (m : List (Nat × Int)) : Int :=
  match m.map (fun kv => kv.2) with
  | [] => 0  -- unreachable: callers check the map is non-empty
  | v :: vs => vs.foldl max v

/-- `list(sitn.keys())[list(sitn.values()).index(sample_number)]`: the key of
the first entry holding this sample number. -/
def firstKeyOfValue (m : List (Nat × Int)) (n : Int) : Option Nat :=
  (m.find? (fun kv => kv.2 = n)).map (fun kv => kv.1)

/-- `autocontrol.queue_put`: resolve `sample_id`/`sample_number`, compute a
priority when unset, enqueue into the scheduled store.  Returns the source's
actual return value — a `(success, description)` pair — plus the new state.
The fresh uuid drawn by `uuid.uuid4()` and the sub-second fraction of
`time.time()` are oracle arguments. -/
def queue_put (s : AtcState) (task0 : Task) (fresh_sample_id : Nat)
    (time_frac : Rat) : (Bool × String) × AtcState :=
  -- no number or id given: defaults to sample number 1 (id minted below)
  let task := if task0.sample_number = none ∧ task0.sample_id = none then
      { task0 with sample_number := some 1 }
    else task0
  let resolved : Option Task :=
    match task.sample_number, task.sample_id with
    | some sn, some sid =>
      if (alistGet s.sample_id_to_number sid) = none ∧
         ¬ (s.sample_id_to_number.any (fun kv => kv.2 = sn)) then
        some task  -- sample ID and number are both new
      else
        match alistGet s.sample_id_to_number sid with
        | some m => if m ≠ sn then none else some task
        | none => none
    | none, some sid =>
      if s.sample_id_to_number.isEmpty then
        some { task with sample_number := some 1 }
      else
        match alistGet s.sample_id_to_number sid with
        | some m => some { task with sample_number := some m }
        | none => some { task with sample_number := some (maxMapValue s.sample_id_to_number + 1) }
    | some sn, none =>
      match firstKeyOfValue s.sample_id_to_number sn with
      | some k => some { task with sample_id := some k }
      | none => some { task with sample_id := some fresh_sample_id }
    | none, none => some task  -- unreachable: handled by the default above
  match resolved with
  | none =>
    ((false, "Task not submitted. Sample number and ID do not match previous submission."), s)
  | some task1 =>
    let sn := task1.sample_number.getD 0
    let sid := task1.sample_id.getD 0
    let s1 := { s with
      sample_id_to_number := alistSet s.sample_id_to_number sid sn }
    let task2 := match task1.priority with
      | some _ => task1
      | none => { task1 with priority := some (-(sn : Rat) - time_frac) }
    ((true, "Task succesfully enqueued."), { s1 with queue := containerPut s1.queue task2 })

/-- `autocontrol.queue_inspect`: snapshot of the scheduled store. -/
def queue_inspect (s : AtcState) : List Task := s.queue

/-- `autocontrol.reset`: clear the scheduled and active stores, blank every
channel-occupancy slot, clear the sample-id map.  The history store is never
deleted. -/
def reset (s : AtcState) : AtcState :=
  { s with
    queue := [],
    active_tasks := [],
    channel_po := s.channel_po.map (fun kv => (kv.1, kv.2.map (fun _ => none))),
    sample_id_to_number := [] }

/-- `autocontrol.restart`: `reset()` plus clearing the device registry. -/
def restart (s : AtcState) : AtcState :=
  { reset s with devices := [] }

/-- Modelled from the spec: `atc.py` defines no `queue_cancel` method — only
its callers exist (`server.py`'s `/cancel` and `/resubmit` handlers call
`atc.queue_cancel(task_id, include_active_queue, drop_material)`).  Spec
§4.1: "`queue_cancel(task_id, include_active=false, drop_material=false) →
task | null`.  Removes from scheduled; if `include_active`, also from active.
If `drop_material`, clear the channel-occupancy slot referencing the task." -/
def queue_cancel (s : AtcState) (task_id : Nat) (include_active : Bool)
    (drop_material : Bool) : Option Task × AtcState :=
  let found :=
    match getTaskById s.queue task_id with
    | some t => some t
    | none => if include_active then getTaskById s.active_tasks task_id else none
  match found with
  | none => (none, s)
  | some t =>
    (some t,
     { s with
        queue := containerRemove s.queue task_id,
        active_tasks :=
          if include_active then containerRemove s.active_tasks task_id
          else s.active_tasks,
        channel_po :=
          if drop_material then
            s.channel_po.map (fun kv =>
              (kv.1, kv.2.map (fun slot =>
                match slot with
                | some u => if u.id = task_id then none else some u
                | none => none)))
          else s.channel_po })

/-! ## Reachable states -/

/-- The state built by `autocontrol.__init__` over an empty storage
directory: empty stores, empty registries, dispatch not paused. -/
def initialState : AtcState := {}

/-- One public operation of the scheduler core, with its external inputs
(submitted task, fresh uuid, submission-time fraction, cancellation
arguments) chosen arbitrarily. -/
inductive AtcStep : AtcState → AtcState → Prop
  | put (s : AtcState) (task : Task) (fresh : Nat) (tf : Rat) :
      AtcStep s (queue_put s task fresh tf).2
  | execute (s : AtcState) : AtcStep s (resultState (queue_execute_one_item s))
  | update (s : AtcState) : AtcStep s (resultState (update_active_tasks s))
  | cancel (s : AtcState) (task_id : Nat) (ia dm : Bool) :
      AtcStep s (queue_cancel s task_id ia dm).2
  | reset_ (s : AtcState) : AtcStep s (reset s)
  | restart_ (s : AtcState) : AtcStep s (restart s)
  | pause (s : AtcState) : AtcStep s { s with paused := true }
  | resume (s : AtcState) : AtcStep s { s with paused := false }

/-- States reachable from the initial state by public operations. -/
def Reach (s : AtcState) : Prop :=
  Relation.ReflTransGen AtcStep initialState s

/-- Two tasks interfere when sub-tasks of both address the same
`(device, channel)` pair with a non-null channel. -/
def pairInterferes (t1 t2 : Task) : Prop :=
  ∃ s1 ∈ t1.tasks, ∃ s2 ∈ t2.tasks,
    s1.device = s2.device ∧ s1.channel ≠ none ∧ s1.channel = s2.channel

/-- The C2 invariant: no two (distinct) tasks of the store interfere. -/
def noStoreInterference (l : List Task) : Prop :=
  ∀ t1 ∈ l, ∀ t2 ∈ l, t1 ≠ t2 → ¬ pairInterferes t1 t2

/-! ## Concrete scenario states used by the claim theorems

All devices below are simulated-style oracles: a fixed status snapshot and
unconditionally succeeding execution. -/

/-- An idle device with `noc` idle channels whose dispatches succeed. -/
def devIdle (noc : Nat) : Device :=
  { number_of_channels := noc,
    status := (Status.success, Status.idle, List.replicate noc Status.idle) }

/-- C1 scenario (spec scenario S3): `qcmd1` is a busy single-channel
non-mixing device, `lh1` a 10-channel liquid handler. -/
def c1DevQcmd : Device :=
  { name := "qcmd1", number_of_channels := 1,
    status := (Status.success, Status.busy, [Status.busy]) }

/-- C1: sample 1's transfer `lh1 → qcmd1`, highest priority. -/
def c1TransferS1 : Task :=
  { id := 1, sample_number := some 1, priority := some (-1),
    task_type := TaskType.transfer,
    tasks := [{ device := "lh1", channel := some 0 },
              { device := "qcmd1", channel := some 0 }] }

/-- C1: sample 2's prepare on `lh1`. -/
def c1PrepareS2 : Task :=
  { id := 2, sample_number := some 2, priority := some (-2),
    task_type := TaskType.prepare,
    tasks := [{ device := "lh1", channel := some 1 }] }

/-- C1: sample 2's queued transfer `lh1 → qcmd1`, establishing qcmd1 on the
sample's future device path. -/
def c1TransferS2 : Task :=
  { id := 3, sample_number := some 2, priority := some (-3),
    task_type := TaskType.transfer,
    tasks := [{ device := "lh1", channel := some 1 },
              { device := "qcmd1", channel := some 0 }] }

/-- C1 scheduler state: sample 1 still queued ahead of sample 2; `qcmd1`
(non-mixing, one channel) lies on sample 2's projected path. -/
def c1State : AtcState :=
  { queue := [c1TransferS1, c1PrepareS2, c1TransferS2],
    devices := [("qcmd1", { device_object := c1DevQcmd, device_type := "qcmd",
                            sample_mixing := false }),
                ("lh1", { device_object := devIdle 10, device_type := "lh" })],
    channel_po := [("qcmd1", [none]), ("lh1", List.replicate 10 none)] }

/-- C3/C10 witness scenario: sample 1's task plus a dependent task. -/
def c3TaskS1 : Task :=
  { id := 1, sample_number := some 1, priority := some (-1),
    task_type := TaskType.prepare, tasks := [{ device := "lh1" }] }

/-- C3: sample 2's task gated on sample 1. -/
def c3TaskS2 : Task :=
  { id := 2, sample_number := some 2, priority := some (-2),
    task_type := TaskType.prepare, tasks := [{ device := "lh1" }],
    dependency_sample_number := some 1 }

def c3State : AtcState :=
  { queue := [c3TaskS1, c3TaskS2],
    devices := [("lh1", { device_object := devIdle 10, device_type := "lh" })],
    channel_po := [("lh1", List.replicate 10 none)] }

/-- C4 scenario: `lh` (2 channels, `channel_mode = 'reuse'`), channel 0 used
by sample 7's active task, channel 1 free. -/
def c4Occupant : Task :=
  { id := 20, sample_number := some 7,
    tasks := [{ device := "lh", channel := some 0 }] }

def c4Device : Device := { devIdle 2 with channel_mode := some "reuse" }

def c4State : AtcState :=
  { active_tasks := [c4Occupant],
    devices := [("lh", { device_object := c4Device, device_type := "lh" })],
    channel_po := [("lh", [none, none])] }

/-- C4 witness state: same reuse-mode device with both channels free. -/
def c4StateFresh : AtcState :=
  { devices := [("lh", { device_object := c4Device, device_type := "lh" })],
    channel_po := [("lh", [none, none])] }

def c4Subtask : TaskData := { device := "lh" }

/-- C5 scenario: two occupancy slots hold sample 4; the slot-1 occupant has
the higher priority value. -/
def c5TaskLow : Task := { id := 10, priority := some (-2), sample_number := some 4 }

def c5TaskHigh : Task := { id := 11, priority := some (-1), sample_number := some 4 }

def c5State : AtcState :=
  { channel_po := [("qcmd1", [some c5TaskLow, some c5TaskHigh])] }

/-- C5: measure task for sample 4 with neither channel nor
`non_channel_storage` preset. -/
def c5Measure : Task :=
  { id := 12, sample_number := some 4, task_type := TaskType.measure,
    tasks := [{ id := 1, device := "qcmd1" }] }

/-- C6 witness state: one scheduled and one active task under distinct ids;
the active task occupies a channel slot. -/
def c6Scheduled : Task :=
  { id := 5, sample_number := some 1, task_type := TaskType.prepare,
    tasks := [{ device := "lh1", channel := some 0 }] }

def c6Active : Task :=
  { id := 6, sample_number := some 2, task_type := TaskType.measure,
    tasks := [{ device := "qcmd1", channel := some 0 }] }

def c6State : AtcState :=
  { queue := [c6Scheduled], active_tasks := [c6Active],
    channel_po := [("qcmd1", [some c6Active])] }

/-- C7 scenario: a plain first submission. -/
def c7Task : Task :=
  { id := 1, sample_number := some 1, task_type := TaskType.prepare,
    tasks := [{ device := "lh1" }] }

/-- C9 scenario: an active measure on `(qcmd1, 0)` whose occupancy slot is
still empty, plus a scheduled measure for another sample presetting the same
channel. -/
def c9Active : Task :=
  { id := 30, sample_number := some 1, task_type := TaskType.measure,
    tasks := [{ id := 31, device := "qcmd1", channel := some 0 }] }

def c9Measure : Task :=
  { id := 40, sample_number := some 5, priority := some (-5),
    task_type := TaskType.measure,
    tasks := [{ id := 41, device := "qcmd1", channel := some 0 }] }

def c9State : AtcState :=
  { queue := [c9Measure], active_tasks := [c9Active],
    devices := [("qcmd1", { device_object := devIdle 1, device_type := "qcmd" })],
    channel_po := [("qcmd1", [none])] }

/-- C10 witness scenario: a task whose dependency is its own sample number. -/
def c10Task : Task :=
  { id := 7, sample_number := some 3, priority := some (-3),
    task_type := TaskType.prepare, tasks := [{ device := "lh1" }],
    dependency_sample_number := some 3 }

def c10State : AtcState :=
  { queue := [c10Task],
    devices := [("lh1", { device_object := devIdle 10, device_type := "lh" })],
    channel_po := [("lh1", List.replicate 10 none)] }

/-! ## Store lemmas -/

theorem mem_insertAsc (n k : Nat) (l : List Nat) :
    k ∈ insertAsc n l ↔ k = n ∨ k ∈ l := by
  induction l with
  | nil => simp [insertAsc]
  | cons m ms ih =>
    by_cases h1 : n < m
    · rw [insertAsc, if_pos h1]
      simp only [List.mem_cons]
    · by_cases h2 : n = m
      · subst h2
        rw [insertAsc, if_neg h1, if_pos rfl]
        simp only [List.mem_cons]
        tauto
      · rw [insertAsc, if_neg h1, if_neg h2]
        simp only [List.mem_cons, ih]
        tauto

theorem mem_setAsc (k : Nat) (l : List Nat) : k ∈ setAsc l ↔ k ∈ l := by
  induction l with
  | nil => simp [setAsc]
  | cons m ms ih =>
    simp only [setAsc, List.foldr] at *
    rw [mem_insertAsc]
    simp [ih]


theorem mem_containerPut {l : List Task} {t u : Task} :
    u ∈ containerPut l t ↔ u ∈ l ∨ u = t := by
  simp [containerPut]

theorem mem_containerRemove {l : List Task} {i : Nat} {u : Task} :
    u ∈ containerRemove l i ↔ u ∈ l ∧ u.id ≠ i := by
  simp [containerRemove]

theorem mem_containerReplace {l : List Task} {t : Task} {i : Nat} {u : Task} :
    u ∈ containerReplace l t i ↔ (u ∈ l ∧ u.id ≠ i) ∨ u = t := by
  simp [containerReplace, containerPut, containerRemove]

theorem getTaskById_eq_none {l : List Task} {i : Nat} :
    getTaskById l i = none ↔ ∀ u ∈ l, u.id ≠ i := by
  simp [getTaskById, List.find?_eq_none]

theorem getTaskById_some {l : List Task} {i : Nat} {t : Task}
    (h : getTaskById l i = some t) : t ∈ l ∧ t.id = i := by
  refine ⟨List.mem_of_find?_eq_some h, ?_⟩
  have := List.find?_some h
  simpa using this

theorem getTaskBySampleNumber_ne_none {l : List Task} {t : Task} {n : Int}
    (ht : t ∈ l) (hn : t.sample_number = some n) :
    getTaskBySampleNumber l n ≠ none := by
  unfold getTaskBySampleNumber
  have hmem : t ∈ l.filter (fun u => decide (u.sample_number = some n)) := by
    rw [List.mem_filter]
    exact ⟨ht, by simp [hn]⟩
  intro hcontra
  simp only at hcontra
  by_cases he : (l.filter (fun u => decide (u.sample_number = some n))).isEmpty
  · rw [List.isEmpty_iff] at he
    rw [he] at hmem
    simp at hmem
  · rw [if_neg he] at hcontra
    simp at hcontra

theorem pickByPriority_mem {l : List Task} {t : Task}
    (h : pickByPriority l = some t) : t ∈ l := by
  induction l generalizing t with
  | nil => simp [pickByPriority] at h
  | cons a as ih =>
    unfold pickByPriority at h
    cases hp : pickByPriority as with
    | none => rw [hp] at h; simp at h; simp [h]
    | some u =>
      rw [hp] at h
      by_cases hc : priLt a.priority u.priority = true
      · simp only [hc, if_pos] at h
        simp at h
        subst h
        exact List.mem_cons_of_mem a (ih hp)
      · simp only [hc] at h
        simp at h
        simp [h]

theorem getByPriority_mem {store : List Task} {types : List TaskType}
    {blocked : List Int} {t : Task}
    (h : getByPriority store types blocked = some t) : t ∈ store := by
  have := pickByPriority_mem h
  exact List.mem_of_mem_filter this

theorem getByPriority_eligible {store : List Task} {types : List TaskType}
    {blocked : List Int} {t : Task}
    (h : getByPriority store types blocked = some t) :
    eligibleRow types blocked t = true := by
  have := pickByPriority_mem h
  exact List.of_mem_filter this

/-- The channels collected by the `sample_number is None` branch of
`find_channels` are exactly those of a matching sub-task of a stored task. -/
theorem mem_findChannelsAll {store : List Task}
    {dev : Option String} {c : Nat} :
    c ∈ findChannelsAll store dev ↔
      ∃ t ∈ store,
        ∃ st ∈ t.tasks, (dev = none ∨ some st.device = dev) ∧ st.channel = some c := by
  unfold findChannelsAll
  rw [mem_setAsc]
  induction store with
  | nil => simp
  | cons t ts ih =>
    simp only [List.foldr]
    simp only [List.mem_append, ih, List.mem_cons]
    constructor
    · rintro (hmem | ⟨u, hu, hrest⟩)
      · rw [List.mem_filterMap] at hmem
        rcases hmem with ⟨st, hst, hf⟩
        by_cases hd : (dev = none ∨ some st.device = dev)
        · rw [if_pos hd] at hf
          exact ⟨t, Or.inl rfl, st, hst, hd, hf⟩
        · rw [if_neg hd] at hf; simp at hf
      · exact ⟨u, Or.inr hu, hrest⟩
    · rintro ⟨u, hu | hu, st, hst, hd, hc⟩
      · subst hu
        left
        rw [List.mem_filterMap]
        exact ⟨st, hst, by rw [if_pos hd]; exact hc⟩
      · exact Or.inr ⟨u, hu, st, hst, hd, hc⟩

/-- `find_interference(task) == False` means no sub-task's chosen channel is
used on its device by any task of the store. -/
theorem findInterference_false {store : List Task} {task : Task}
    (h : findInterference store task = false) :
    ∀ st ∈ task.tasks, ∀ c, st.channel = some c →
      ∀ u ∈ store, ∀ su ∈ u.tasks, su.device = st.device → su.channel ≠ some c := by
  intro st hst c hc u hu su hsu hdev hsc
  unfold findInterference at h
  rw [List.any_eq_false] at h
  have := h st hst
  rw [hc] at this
  simp only [decide_eq_true_eq] at this
  apply this
  rw [mem_findChannelsAll]
  exact ⟨u, hu, su, hsu, Or.inr (by rw [hdev]), hsc⟩

/-- Inserting a non-interfering task preserves the pairwise
non-interference invariant. -/
theorem noStoreInterference_put {l : List Task} {t : Task}
    (hl : noStoreInterference l) (ht : findInterference l t = false) :
    noStoreInterference (containerPut l t) := by
  intro t1 h1 t2 h2 hne hint
  rw [mem_containerPut] at h1 h2
  rcases h1 with h1 | h1 <;> rcases h2 with h2 | h2
  · exact hl t1 h1 t2 h2 hne hint
  · -- t2 = t: t1 ∈ l interferes with t
    subst h2
    rcases hint with ⟨s1, hs1, s2, hs2, hdev, hnn, hch⟩
    rcases hc : s1.channel with _ | c
    · exact hnn hc
    · have := findInterference_false ht s2 hs2 c (by rw [← hch, hc])
      exact this t1 h1 s1 hs1 hdev (by rw [hc])
  · -- t1 = t: t interferes with t2 ∈ l
    subst h1
    rcases hint with ⟨s1, hs1, s2, hs2, hdev, hnn, hch⟩
    rcases hc : s1.channel with _ | c
    · exact hnn hc
    · have := findInterference_false ht s1 hs1 c hc
      exact this t2 h2 s2 hs2 hdev.symm (by rw [← hch, hc])
  · subst h1 h2; exact hne rfl

/-- Non-interference is preserved by passing to element-wise sub-collections. -/
theorem noStoreInterference_sub {l l' : List Task}
    (hsub : ∀ x ∈ l', x ∈ l) (hl : noStoreInterference l) :
    noStoreInterference l' :=
  fun t1 h1 t2 h2 hne hint => hl t1 (hsub t1 h1) t2 (hsub t2 h2) hne hint

/-! ## Shape lemmas for the pre-processing handlers and `process_task` -/

theorem setSubtaskChannel_id (t : Task) (i c : Nat) :
    (setSubtaskChannel t i c).id = t.id := rfl

theorem setSubtaskChannel_sample (t : Task) (i c : Nat) :
    (setSubtaskChannel t i c).sample_number = t.sample_number := rfl

/-- `pre_process_init` changes only the device registry. -/
theorem pre_process_init_state (s : AtcState) (t : Task) :
    ∃ d, (pre_process_init s t).2.2.2 = { s with devices := d } := by
  unfold pre_process_init
  dsimp only
  split
  · exact ⟨_, rfl⟩
  · exact ⟨s.devices, rfl⟩

theorem pre_process_init_task (s : AtcState) (t : Task) :
    (pre_process_init s t).2.1 = t := by
  unfold pre_process_init
  dsimp only
  split <;> rfl

/-- `pre_process_measure` changes only the channel-occupancy table. -/
theorem pre_process_measure_state (s : AtcState) (t : Task) :
    ∃ cp, (pre_process_measure s t).2.2.2 = { s with channel_po := cp } := by
  unfold pre_process_measure
  dsimp only
  repeat' split
  all_goals exact ⟨_, rfl⟩

theorem pre_process_measure_id (s : AtcState) (t : Task) :
    (pre_process_measure s t).2.1.id = t.id := by
  unfold pre_process_measure
  dsimp only
  repeat' split
  all_goals rfl

/-- `pre_process_prepare` leaves the state unchanged — also on the raising
path, where the error payload records the entry state. -/
theorem pre_process_prepare_state (s : AtcState) (t : Task) :
    handlerState (pre_process_prepare s t) = s := by
  unfold pre_process_prepare
  dsimp only
  repeat' split
  all_goals rfl

theorem pre_process_prepare_id (s : AtcState) (t : Task) :
    (handlerTask t (pre_process_prepare s t)).id = t.id := by
  unfold pre_process_prepare
  dsimp only
  repeat' split
  all_goals rfl

/-- The transfer pre-processing loop changes only the channel-occupancy
table — also on the raising path. -/
theorem pre_process_transfer_loop_state (s : AtcState) (t : Task) (i fuel : Nat) :
    ∃ cp, handlerState (pre_process_transfer_loop s t i fuel) =
      { s with channel_po := cp } := by
  induction fuel generalizing s t i with
  | zero => exact ⟨s.channel_po, rfl⟩
  | succ fuel ih =>
    unfold pre_process_transfer_loop
    dsimp only
    repeat' split
    all_goals first
      | exact ⟨_, rfl⟩
      | exact ih _ _ _

theorem pre_process_transfer_loop_id (s : AtcState) (t d : Task) (i fuel : Nat)
    (hd : d.id = t.id) :
    (handlerTask d (pre_process_transfer_loop s t i fuel)).id = t.id := by
  induction fuel generalizing s t d i with
  | zero => rfl
  | succ fuel ih =>
    unfold pre_process_transfer_loop
    dsimp only
    repeat' split
    all_goals first
      | exact hd
      | rfl
      | exact ih _ _ _ _ hd

/-! ## `process_task` characterization -/

theorem pre_process_transfer_state (s : AtcState) (t : Task) :
    ∃ cp, handlerState (pre_process_transfer s t) = { s with channel_po := cp } :=
  pre_process_transfer_loop_state s t 0 t.tasks.length

theorem pre_process_transfer_id (s : AtcState) (t : Task) :
    (handlerTask t (pre_process_transfer s t)).id = t.id :=
  pre_process_transfer_loop_id s t t 0 t.tasks.length rfl

/-- The handlers change at most the device registry and the channel-occupancy
table; scheduled store, active store, history store are untouched — also when
the handler raises. -/
theorem processTaskHandlers_state (s : AtcState) (task : Task) :
    ∃ dv cp, handlerState (processTaskHandlers s task) =
      { s with devices := dv, channel_po := cp } := by
  unfold processTaskHandlers
  cases task.task_type
  case none_ => exact ⟨s.devices, s.channel_po, rfl⟩
  case init =>
    rcases pre_process_init_state s task with ⟨d, hd⟩
    exact ⟨d, s.channel_po, by dsimp only [handlerState]; rw [hd]⟩
  case prepare =>
    rw [pre_process_prepare_state s task]
    exact ⟨s.devices, s.channel_po, rfl⟩
  case transfer =>
    rcases pre_process_transfer_state s task with ⟨cp, hcp⟩
    exact ⟨s.devices, cp, by rw [hcp]⟩
  case measure =>
    rcases pre_process_measure_state s task with ⟨cp, hcp⟩
    exact ⟨s.devices, cp, by dsimp only [handlerState]; rw [hcp]⟩
  case nochannel => exact ⟨s.devices, s.channel_po, rfl⟩
  case shutdown => exact ⟨s.devices, s.channel_po, rfl⟩

theorem processTaskHandlers_id (s : AtcState) (task : Task) :
    (handlerTask task (processTaskHandlers s task)).id = task.id := by
  unfold processTaskHandlers
  cases task.task_type
  case none_ => rfl
  case init => dsimp only [handlerTask]; rw [pre_process_init_task]
  case prepare => exact pre_process_prepare_id s task
  case transfer => exact pre_process_transfer_id s task
  case measure => dsimp only [handlerTask]; exact pre_process_measure_id s task
  case nochannel => rfl
  case shutdown => rfl

theorem processTaskDispatch_task (tt : TaskType) (r : Bool × Task × String × AtcState) :
    (processTaskDispatch tt r).2.1 = r.2.1 := by
  unfold processTaskDispatch
  dsimp only
  repeat' split
  all_goals rfl

theorem processTaskDispatch_queue (tt : TaskType) (r : Bool × Task × String × AtcState) :
    (processTaskDispatch tt r).2.2.queue = r.2.2.2.queue := by
  unfold processTaskDispatch
  dsimp only
  repeat' split
  all_goals rfl

theorem processTaskDispatch_active (tt : TaskType) (r : Bool × Task × String × AtcState) :
    (processTaskDispatch tt r).2.2.active_tasks = r.2.2.2.active_tasks ∨
      (findInterference r.2.2.2.active_tasks r.2.1 = false ∧
       (processTaskDispatch tt r).2.2.active_tasks =
         containerPut r.2.2.2.active_tasks r.2.1) := by
  unfold processTaskDispatch
  dsimp only
  by_cases h1 : (r.1 && findInterference r.2.2.2.active_tasks r.2.1) = true
  · rw [if_pos h1]; left; rfl
  · rw [if_neg h1]
    by_cases h2 : r.1 = true
    · rw [if_pos h2]
      rw [h2] at h1
      simp only [Bool.true_and] at h1
      rw [Bool.not_eq_true] at h1
      split
      · right; exact ⟨h1, rfl⟩
      · left; rfl
    · rw [if_neg h2]; left; rfl

/-- `process_task` never touches the scheduled store — also when the handler
raises, since the raise state differs from the entry state at most in the
device registry and the channel-occupancy table. -/
theorem process_task_queue (s : AtcState) (task : Task) :
    (processTaskState (process_task s task)).queue = s.queue := by
  unfold process_task
  split
  · rfl
  · rcases processTaskHandlers_state s task with ⟨dv, cp, h⟩
    cases hh : processTaskHandlers s task with
    | error e =>
      rw [hh] at h
      dsimp only [handlerState] at h
      dsimp only [processTaskState]
      rw [h]
    | ok v =>
      rw [hh] at h
      dsimp only [handlerState] at h
      dsimp only [processTaskState]
      rw [processTaskDispatch_queue, h]

/-- `process_task` returns the task under the same id (the caller's variable
is unchanged when the call raises). -/
theorem process_task_id (s : AtcState) (task : Task) :
    (processTaskRet task (process_task s task)).id = task.id := by
  unfold process_task
  split
  · rfl
  · cases hh : processTaskHandlers s task with
    | error e => rfl
    | ok v =>
      have hid := processTaskHandlers_id s task
      rw [hh] at hid
      dsimp only [handlerTask] at hid
      dsimp only [processTaskRet]
      rw [processTaskDispatch_task]
      exact hid

/-- The active store after `process_task` is unchanged, or else extended by
exactly the processed task after a negative interference check — the C2
insertion guard.  A raising handler never reaches the insertion. -/
theorem process_task_active (s : AtcState) (task : Task) :
    (processTaskState (process_task s task)).active_tasks = s.active_tasks ∨
      (findInterference s.active_tasks (processTaskRet task (process_task s task)) = false ∧
       (processTaskState (process_task s task)).active_tasks =
         containerPut s.active_tasks (processTaskRet task (process_task s task))) := by
  unfold process_task
  split
  · left; rfl
  · rcases processTaskHandlers_state s task with ⟨dv, cp, h⟩
    cases hh : processTaskHandlers s task with
    | error e =>
      rw [hh] at h
      dsimp only [handlerState] at h
      left
      dsimp only [processTaskState]
      rw [h]
    | ok v =>
      rw [hh] at h
      dsimp only [handlerState] at h
      have hact : v.2.2.2.active_tasks = s.active_tasks := by rw [h]
      dsimp only [processTaskState, processTaskRet]
      rcases processTaskDispatch_active task.task_type v with
        hsame | ⟨hint, happ⟩
      · left; rw [hsame, hact]
      · right
        rw [processTaskDispatch_task]
        constructor
        · rw [← hact]; exact hint
        · rw [happ, hact]

/-! ## Collection-path lemmas -/

theorem transferSourceStep_ok {s : AtcState} {task : Task} {st0 : TaskData}
    {r : Task × AtcState} (h : transferSourceStep s task st0 = Except.ok r) :
    r.2.active_tasks = s.active_tasks ∧ r.2.queue = s.queue ∧ r.1.id = task.id := by
  unfold transferSourceStep at h
  repeat' split at h
  all_goals first
    | (cases h; exact ⟨rfl, rfl, rfl⟩)
    | exact Except.noConfusion h

theorem transferTargetStep_ok {s : AtcState} {task : Task} {stl : TaskData}
    {s2 : AtcState} (h : transferTargetStep s task stl = Except.ok s2) :
    s2.active_tasks = s.active_tasks ∧ s2.queue = s.queue := by
  unfold transferTargetStep at h
  repeat' split at h
  all_goals first
    | (cases h; exact ⟨rfl, rfl⟩)
    | exact Except.noConfusion h

/-- `post_process_task` leaves the active store unchanged (collection failure
or exception before any store write), replaces the task by itself, or removes
it. -/
theorem post_process_task_active (s : AtcState) (t : Task) :
    (resultState (post_process_task s t)).active_tasks = s.active_tasks ∨
    (resultState (post_process_task s t)).active_tasks =
      containerReplace s.active_tasks t t.id ∨
    (resultState (post_process_task s t)).active_tasks =
      containerRemove s.active_tasks t.id := by
  unfold post_process_task
  cases hts : t.tasks with
  | nil => left; rfl
  | cons st0 rest =>
    dsimp only
    cases htt : t.task_type
    case none_ => right; right; rfl
    case nochannel => right; right; rfl
    case shutdown => right; right; rfl
    case init =>
      dsimp only
      cases get_device_object s st0.device
      · left; rfl
      · right; right; rfl
    case prepare =>
      dsimp only
      cases alistGet s.channel_po st0.device
      · left; rfl
      · cases st0.channel
        · left; rfl
        · dsimp only
          split
          · right; right; rfl
          · left; rfl
    case measure =>
      dsimp only
      cases get_device_object s st0.device
      · left; rfl
      · dsimp only
        split
        · right; left; rfl
        · split
          · right; left; rfl
          · split
            · right; left; rfl
            · cases alistGet s.channel_po st0.device
              · left; rfl
              · cases st0.channel
                · left; rfl
                · dsimp only
                  split
                  · split
                    · left; rfl
                    · right; right; rfl
                  · left; rfl
    case transfer =>
      dsimp only
      cases hsrc : transferSourceStep s t st0 with
      | error e => left; rfl
      | ok r =>
        dsimp only
        obtain ⟨hact, -, hid⟩ := transferSourceStep_ok hsrc
        cases htgt : transferTargetStep r.2 r.1 ((st0 :: rest).getLastD {}) with
        | error e =>
          left
          exact hact
        | ok s2 =>
          right; right
          obtain ⟨hact2, -⟩ := transferTargetStep_ok htgt
          dsimp only [resultState, collectTail]
          rw [hact2, hact, hid]

theorem post_process_task_active_mem (s : AtcState) (t : Task) :
    ∀ x ∈ (resultState (post_process_task s t)).active_tasks,
      x ∈ s.active_tasks ∨ x = t := by
  intro x hx
  rcases post_process_task_active s t with h | h | h
  · rw [h] at hx; exact Or.inl hx
  · rw [h, mem_containerReplace] at hx
    rcases hx with ⟨hx, _⟩ | hx
    · exact Or.inl hx
    · exact Or.inr hx
  · rw [h, mem_containerRemove] at hx
    exact Or.inl hx.1

/-- Every task in the active store after `updateLoop` — whether the loop runs
to completion or aborts on an exception — was already a member of `orig`,
provided the starting store and the snapshot were. -/
theorem updateLoop_active_mem (l : List Task) (s : AtcState) (col : Bool)
    (orig : List Task)
    (hs : ∀ x ∈ s.active_tasks, x ∈ orig) (hl : ∀ x ∈ l, x ∈ orig) :
    ∀ x ∈ (resultState (updateLoop s l col)).active_tasks, x ∈ orig := by
  induction l generalizing s col with
  | nil => exact hs
  | cons task rest ih =>
    unfold updateLoop
    split
    · cases hp : post_process_task s task with
      | error e =>
        dsimp only [resultState]
        intro x hx
        rcases post_process_task_active_mem s task x
            (by rw [hp]; exact hx) with h | h
        · exact hs x h
        · rw [h]; exact hl task (List.mem_cons_self task rest)
      | ok r =>
        apply ih
        · intro x hx
          rcases post_process_task_active_mem s task x
              (by rw [hp]; exact hx) with h | h
          · exact hs x h
          · rw [h]; exact hl task (List.mem_cons_self task rest)
        · intro x hx; exact hl x (List.mem_cons_of_mem task hx)
    · apply ih
      · intro x hx
        rw [mem_containerReplace] at hx
        rcases hx with ⟨hx, _⟩ | hx
        · exact hs x hx
        · rw [hx]; exact hl task (List.mem_cons_self task rest)
      · intro x hx; exact hl x (List.mem_cons_of_mem task hx)

/-- `update_active_tasks` preserves the non-interference invariant. -/
theorem update_active_tasks_noInterference (s : AtcState)
    (h : noStoreInterference s.active_tasks) :
    noStoreInterference (resultState (update_active_tasks s)).active_tasks := by
  apply noStoreInterference_sub _ h
  exact updateLoop_active_mem s.active_tasks s false s.active_tasks
    (fun x hx => hx) (fun x hx => hx)

/-! ## Dispatch-loop lemmas -/

/-- `qeoiLoop` preserves the non-interference invariant of the active
store — also when an exception propagates out of `process_task`. -/
theorem qeoiLoop_noInterference (fuel : Nat) (s : AtcState)
    (bands : List (List TaskType)) (blocked : List Int)
    (h : noStoreInterference s.active_tasks) :
    noStoreInterference (resultState (qeoiLoop s bands blocked fuel)).active_tasks := by
  induction fuel generalizing s bands blocked with
  | zero => exact h
  | succ fuel ih =>
    unfold qeoiLoop
    match bands with
    | [] => exact h
    | task_type :: rest =>
      dsimp only
      cases hg : getByPriority s.queue task_type blocked with
      | none => exact ih s rest blocked h
      | some task =>
        dsimp only
        split
        · exact h
        · split
          · exact h
          · split
            · exact h
            · have hact := process_task_active s task
              cases hp : process_task s task with
              | error e =>
                rw [hp] at hact
                dsimp only [processTaskState] at hact
                dsimp only [resultState]
                rcases hact with hsame | ⟨hint, happ⟩
                · rw [hsame]; exact h
                · rw [happ]; exact noStoreInterference_put h hint
              | ok r =>
                rw [hp] at hact
                dsimp only [processTaskState] at hact
                have hr22 : noStoreInterference r.2.2.active_tasks := by
                  rcases hact with hsame | ⟨hint, happ⟩
                  · rw [hsame]; exact h
                  · rw [happ]; exact noStoreInterference_put h hint
                dsimp only
                split
                · exact hr22
                · exact ih _ _ _ hr22

/-! ## Per-operation lemmas for the reachability invariant -/

theorem queue_put_active (s : AtcState) (t : Task) (f : Nat) (tf : Rat) :
    (queue_put s t f tf).2.active_tasks = s.active_tasks := by
  unfold queue_put
  dsimp only
  repeat' split
  all_goals rfl

theorem queue_cancel_active_mem (s : AtcState) (i : Nat) (ia dm : Bool) :
    ∀ x ∈ (queue_cancel s i ia dm).2.active_tasks, x ∈ s.active_tasks := by
  unfold queue_cancel
  dsimp only
  repeat' split
  all_goals intro x hx
  all_goals first
    | exact hx
    | (rw [mem_containerRemove] at hx; exact hx.1)

/-- C2 invariant holds in every reachable state. -/
theorem reach_noStoreInterference (s : AtcState) (h : Reach s) :
    noStoreInterference s.active_tasks := by
  induction h with
  | refl =>
    intro t1 h1
    simp [initialState] at h1
  | tail _ hstep ih =>
    rename_i b c _
    cases hstep with
    | put task fresh tf => rw [queue_put_active]; exact ih
    | execute => exact qeoiLoop_noInterference _ b _ _ ih
    | update => exact update_active_tasks_noInterference b ih
    | cancel task_id ia dm =>
      exact noStoreInterference_sub (queue_cancel_active_mem b task_id ia dm) ih
    | reset_ =>
      intro t1 h1
      simp [reset] at h1
    | restart_ =>
      intro t1 h1
      simp [restart, reset] at h1
    | pause => exact ih
    | resume => exact ih

/-! ## The route check is dead code -/

theorem futureStepEntry_pairs (a : List PyVal × String × Option Nat)
    (st : TaskData) (hp : ∀ e ∈ a.1, ∃ x y, e = PyVal.pair x y) :
    ∀ e ∈ (futureStepEntry a st).1, ∃ x y, e = PyVal.pair x y := by
  intro e he
  unfold futureStepEntry at he
  dsimp only at he
  split at he
  · exact hp e he
  · rcases List.mem_append.mp he with h | h
    · exact hp e h
    · simp at h
      exact ⟨st.device, st.channel, h⟩

theorem foldl_futureStepEntry_pairs (l : List TaskData)
    (a : List PyVal × String × Option Nat)
    (hp : ∀ e ∈ a.1, ∃ x y, e = PyVal.pair x y) :
    ∀ e ∈ (l.foldl futureStepEntry a).1, ∃ x y, e = PyVal.pair x y := by
  induction l generalizing a with
  | nil => exact hp
  | cons st rest ih =>
    exact ih (futureStepEntry a st) (futureStepEntry_pairs a st hp)

theorem futureStep_pairs (acc : List PyVal × String × Option Nat) (t : Task)
    (hp : ∀ e ∈ acc.1, ∃ x y, e = PyVal.pair x y) :
    ∀ e ∈ (futureStep acc t).1, ∃ x y, e = PyVal.pair x y := by
  unfold futureStep
  split
  · exact hp
  · split
    · exact foldl_futureStepEntry_pairs _ acc hp
    · exact hp

/-- Every entry produced by `get_future_devices` is a `(device, channel)`
tuple. -/
theorem getFutureDevices_pairs (store : List Task) (n : Int) (d : String)
    (c : Option Nat) :
    ∀ e ∈ getFutureDevices store n d c, ∃ x y, e = PyVal.pair x y := by
  unfold getFutureDevices
  dsimp only
  generalize (store.filter _) = rows
  have : ∀ (l : List Task) (acc : List PyVal × String × Option Nat),
      (∀ e ∈ acc.1, ∃ x y, e = PyVal.pair x y) →
      ∀ e ∈ (l.foldl futureStep acc).1, ∃ x y, e = PyVal.pair x y := by
    intro l
    induction l with
    | nil => intro acc hp; exact hp
    | cons t rest ih =>
      intro acc hp
      exact ih (futureStep acc t) (futureStep_pairs acc t hp)
  exact this rows ([], d, c) (by intro e he; simp at he)

/-- The membership test `device in self.devices` of the route loop compares a
`(device, channel)` tuple with the registry's string keys and never succeeds;
the loop can only return `route_ok = True`. -/
theorem routeLoopOk_true (s : AtcState) (n : Int) (entries : List PyVal)
    (hp : ∀ e ∈ entries, ∃ x y, e = PyVal.pair x y) :
    routeLoopOk s n entries = true := by
  induction entries with
  | nil => rfl
  | cons e rest ih =>
    rcases hp e (List.mem_cons_self e rest) with ⟨x, y, hxy⟩
    subst hxy
    unfold routeLoopOk
    have hfind : s.devices.find? (fun kv => PyVal.str kv.1 = PyVal.pair x y) = none := by
      rw [List.find?_eq_none]
      intro kv _
      simp
    rw [hfind]
    exact ih (fun e he => hp e (List.mem_cons_of_mem _ he))

/-- The route check of `queue_execute_one_item` never abandons a dispatch
cycle, whatever the scheduler state and candidate task. -/
theorem routeCheckAbandons_false (s : AtcState) (task : Task) :
    routeCheckAbandons s task = false := by
  unfold routeCheckAbandons
  dsimp only
  split
  · rw [routeLoopOk_true s _ _ (getFutureDevices_pairs _ _ _ _)]
    rfl
  · rfl

/-! ## Dependency-gating lemmas -/

/-- Replacing a task by a same-id update keeps the projected `task_id` column
duplicate-free. -/
theorem containerReplace_ids_nodup (l : List Task) (t : Task)
    (hn : (l.map (fun u => u.id)).Nodup) :
    ((containerReplace l t t.id).map (fun u => u.id)).Nodup := by
  unfold containerReplace containerPut containerRemove
  rw [List.map_append]
  apply List.Nodup.append
  · exact ((List.filter_sublist l).map (fun u => u.id)).nodup hn
  · simp
  · intro a ha hb
    simp only [List.map_cons, List.map_nil, List.mem_singleton] at hb
    subst hb
    rw [List.mem_map] at ha
    rcases ha with ⟨u, hu, hid⟩
    rw [List.mem_filter] at hu
    have h2 := hu.2
    simp only [ne_eq, decide_not, Bool.not_eq_true', decide_eq_false_iff_not] at h2
    exact h2 hid

/-- Core starvation lemma: a task whose `dependency_sample_number` equals its
own sample number survives every iteration of the dispatch loop in the
scheduled store, and nothing equal to it is ever added to the active
store — also when the loop aborts on an exception. -/
theorem qeoiLoop_self_dep (fuel : Nat) (s : AtcState)
    (bands : List (List TaskType)) (blocked : List Int) (t : Task) (n : Int)
    (hnodup : (s.queue.map (fun u => u.id)).Nodup)
    (ht : t ∈ s.queue)
    (hdep : t.dependency_sample_number = some n) (hsn : t.sample_number = some n) :
    t ∈ (resultState (qeoiLoop s bands blocked fuel)).queue ∧
    (∀ u ∈ (resultState (qeoiLoop s bands blocked fuel)).active_tasks,
      u ∈ s.active_tasks ∨ u ≠ t) := by
  induction fuel generalizing s bands blocked with
  | zero => exact ⟨ht, fun u hu => Or.inl hu⟩
  | succ fuel ih =>
    unfold qeoiLoop
    match bands with
    | [] => exact ⟨ht, fun u hu => Or.inl hu⟩
    | types :: rest =>
      dsimp only
      cases hg : getByPriority s.queue types blocked with
      | none => exact ih s rest blocked hnodup ht
      | some c =>
        dsimp only
        by_cases hdep1 : (match c.dependency_sample_number with
          | some dep => (getTaskBySampleNumber s.queue dep).isSome
          | none => false) = true
        · rw [if_pos hdep1]
          exact ⟨ht, fun u hu => Or.inl hu⟩
        · rw [if_neg hdep1]
          have hcnt : c ≠ t := by
            intro he
            apply hdep1
            rw [he, hdep]
            rw [Option.isSome_iff_ne_none]
            exact getTaskBySampleNumber_ne_none ht hsn
          have hcid : c.id ≠ t.id := by
            intro he
            exact hcnt (List.inj_on_of_nodup_map hnodup (getByPriority_mem hg) ht he)
          split
          · exact ⟨ht, fun u hu => Or.inl hu⟩
          · split
            · exact ⟨ht, fun u hu => Or.inl hu⟩
            · have hq := process_task_queue s c
              have hid := process_task_id s c
              have hact := process_task_active s c
              cases hp : process_task s c with
              | error e =>
                rw [hp] at hq hid hact
                dsimp only [processTaskState, processTaskRet] at hq hid hact
                dsimp only [resultState]
                constructor
                · rw [hq]; exact ht
                · intro u hu
                  rcases hact with hsame | ⟨_, happ⟩
                  · rw [hsame] at hu; exact Or.inl hu
                  · rw [happ, mem_containerPut] at hu
                    rcases hu with hu | hu
                    · exact Or.inl hu
                    · exact Or.inr (by rw [hu]; exact hcnt)
              | ok r =>
                rw [hp] at hq hid hact
                dsimp only [processTaskState, processTaskRet] at hq hid hact
                dsimp only
                split
                · -- dispatched: r.2.1 removed from the queue, possibly added to active
                  constructor
                  · dsimp only [resultState]
                    rw [mem_containerRemove, hq, hid]
                    exact ⟨ht, fun he => hcid he.symm⟩
                  · intro u hu
                    dsimp only [resultState] at hu
                    rcases hact with hsame | ⟨_, happ⟩
                    · rw [hsame] at hu; exact Or.inl hu
                    · rw [happ, mem_containerPut] at hu
                      rcases hu with hu | hu
                      · exact Or.inl hu
                      · right
                        intro he
                        have hidt : t.id = c.id := by rw [← he, hu, hid]
                        exact hcid hidt.symm
                · -- blocked: recurse on the replaced-queue state
                  have hq2 : ({ r.2.2 with
                      queue := containerReplace r.2.2.queue r.2.1 r.2.1.id } :
                      AtcState).queue =
                      containerReplace s.queue r.2.1 r.2.1.id := by
                    rw [hq]
                  have hmem2 : t ∈ containerReplace s.queue r.2.1 r.2.1.id := by
                    rw [mem_containerReplace]
                    exact Or.inl ⟨ht, fun he => hcid (he.trans hid).symm⟩
                  have hnodup2 : ((containerReplace s.queue r.2.1
                      r.2.1.id).map (fun u => u.id)).Nodup := by
                    have := containerReplace_ids_nodup s.queue r.2.1 hnodup
                    exact this
                  rcases ih _ (types :: rest) _
                    (by rw [hq2]; exact hnodup2) (by rw [hq2]; exact hmem2) with
                    ⟨hres1, hres2⟩
                  refine ⟨hres1, fun u hu => ?_⟩
                  rcases hres2 u hu with hin | hne
                  · dsimp only at hin
                    rcases hact with hsame | ⟨_, happ⟩
                    · rw [hsame] at hin; exact Or.inl hin
                    · rw [happ, mem_containerPut] at hin
                      rcases hin with hin | hin
                      · exact Or.inl hin
                      · right
                        intro he
                        have hidt : t.id = c.id := by rw [← he, hin, hid]
                        exact hcid hidt.symm
                  · exact Or.inr hne

/-! ## Free-channel ordering lemmas -/

/-- The free-channel list from the active-task analysis is strictly
ascending: it filters `range(number_of_channels)`. -/
theorem get_channel_information_sorted (s : AtcState) (dev : String) :
    List.Pairwise (· < ·) (get_channel_information_from_active_tasks s dev).1 := by
  unfold get_channel_information_from_active_tasks
  dsimp only
  exact List.Pairwise.sublist (List.filter_sublist _) (List.pairwise_lt_range _)

/-- The combined free-channel list of `get_channel_occupancy` is strictly
ascending, so its first element is the lowest-numbered free channel. -/
theorem get_channel_occupancy_sorted (s : AtcState) (dev : String) :
    List.Pairwise (· < ·) (get_channel_occupancy s dev).1 := by
  unfold get_channel_occupancy
  dsimp only
  split
  · split
    · exact get_channel_information_sorted s dev
    · exact List.Pairwise.sublist (List.filter_sublist _)
        (get_channel_information_sorted s dev)
  · exact get_channel_information_sorted s dev

/-! ## Claim theorems -/

/-- C1.  The route check (sample-mixing) of `queue_execute_one_item` is dead
code: `get_future_devices` returns `(device, channel)` tuples, which the
route loop compares against the string keys of the device registry, so the
oversubscription test never runs and the dispatch cycle is never abandoned —
for any state and candidate (first conjunct).  In the concrete S3-style state
`c1State`, the registered device `qcmd1` has `sample_mixing = false` and one
channel, it lies on candidate sample 2's projected future path, the lowest
scheduled sample number is 1, and `(2 - 1) > (1 - 1)` — the claim demands the
cycle be abandoned with nothing dispatched, yet the call dispatches sample
2's prepare task. -/
theorem c1_route_check_never_abandons :
    (∀ (s : AtcState) (task : Task), routeCheckAbandons s task = false) ∧
    ((alistGet c1State.devices "qcmd1").map (fun e => e.sample_mixing) = some false ∧
     (alistGet c1State.devices "qcmd1").map
       (fun e => e.device_object.number_of_channels) = some 1 ∧
     c1PrepareS2.sample_number = some 2 ∧
     PyVal.pair "qcmd1" (some 0) ∈ getFutureDevices c1State.queue 2 "lh1" (some 1) ∧
     getLowestSampleNumber c1State.queue = some 1 ∧
     ((2 : Int) - 1 > 1 - 1)) ∧
    resultFlag (queue_execute_one_item c1State) = some true ∧
    c1PrepareS2 ∈ (resultState (queue_execute_one_item c1State)).active_tasks := by
  refine ⟨routeCheckAbandons_false, ?_, ?_, ?_⟩
  · exact ⟨by decide, by decide, by decide, by decide, by decide, by decide⟩
  · decide
  · decide

/-- C2.  Interference invariant: in every state reachable by the public
operations from the initial state, no two distinct tasks of the active store
address the same `(device, channel)` pair with a non-null channel; and
`process_task` either leaves the active store unchanged or inserts exactly
the processed task after a negative `find_interference` check over the
active store. -/
theorem c2_active_interference_invariant :
    (∀ s : AtcState, Reach s → noStoreInterference s.active_tasks) ∧
    (∀ (s : AtcState) (task : Task),
      (processTaskState (process_task s task)).active_tasks = s.active_tasks ∨
      (findInterference s.active_tasks
         (processTaskRet task (process_task s task)) = false ∧
       (processTaskState (process_task s task)).active_tasks =
         containerPut s.active_tasks (processTaskRet task (process_task s task)))) :=
  ⟨reach_noStoreInterference, process_task_active⟩

/-- C2 witness: the invariant instantiated at the reachable state obtained by
submitting a task and then attempting one dispatch. -/
theorem c2_active_interference_invariant_witness :
    noStoreInterference
      (resultState (queue_execute_one_item
        (queue_put initialState c7Task 42 0).2)).active_tasks :=
  c2_active_interference_invariant.1 _
    (Relation.ReflTransGen.tail
      (Relation.ReflTransGen.tail Relation.ReflTransGen.refl
        (AtcStep.put initialState c7Task 42 0))
      (AtcStep.execute (queue_put initialState c7Task 42 0).2))

/-- C3.  Dependency gating: at any point of the dispatch loop (any remaining
bands, any blocked set, any current state — i.e. whenever
`queue_execute_one_item` selects a candidate), if the selected candidate has
`dependency_sample_number` set with some task of that sample number still in
the scheduled store, or `dependency_id` set with some task of that id still
in the scheduled store, the whole call returns `False` with the state — and
in particular the scheduled and active stores — exactly unchanged, the
candidate still scheduled. -/
theorem c3_dependency_gating (s : AtcState) (types : List TaskType)
    (rest : List (List TaskType)) (blocked : List Int) (fuel : Nat) (task : Task)
    (hsel : getByPriority s.queue types blocked = some task)
    (hdep : (∃ n, task.dependency_sample_number = some n ∧
               getTaskBySampleNumber s.queue n ≠ none) ∨
            (∃ d, task.dependency_id = some d ∧ getTaskById s.queue d ≠ none)) :
    qeoiLoop s (types :: rest) blocked (fuel + 1) = Except.ok (false, s) ∧
    task ∈ s.queue := by
  refine ⟨?_, getByPriority_mem hsel⟩
  unfold qeoiLoop
  dsimp only
  rw [hsel]
  dsimp only
  rcases hdep with ⟨n, hn, hl⟩ | ⟨d, hd, hl⟩
  · rw [hn]
    dsimp only
    rw [if_pos (Option.isSome_iff_ne_none.mpr hl)]
  · by_cases h1 : (match task.dependency_sample_number with
      | some dep => (getTaskBySampleNumber s.queue dep).isSome
      | none => false) = true
    · rw [if_pos h1]
    · rw [if_neg h1, hd]
      dsimp only
      rw [if_pos (Option.isSome_iff_ne_none.mpr hl)]

/-- C3 witness: in `c3State` with sample 1 blocked for this cycle, the
selected candidate is sample 2's task, whose dependency on sample 1 is
unresolved; the loop ends with `False` and the state untouched. -/
theorem c3_dependency_gating_witness :
    qeoiLoop c3State
      [[TaskType.prepare, TaskType.transfer, TaskType.measure, TaskType.nochannel]]
      [1] (c3State.queue.length + 1) = Except.ok (false, c3State) :=
  (c3_dependency_gating c3State
    [TaskType.prepare, TaskType.transfer, TaskType.measure, TaskType.nochannel]
    [] [1] c3State.queue.length c3TaskS2 (by decide)
    (Or.inl ⟨1, by decide, by decide⟩)).1

/-- C10.  Self-dependency starvation: a scheduled task `t` with
`t.dependency_sample_number = t.sample_number` is never dispatched by
`queue_execute_one_item` (anything newly present in the active store differs
from `t`) and always remains in the scheduled store: the candidate is fetched
with `remove=False`, so the dependency lookup finds `t` itself.  (`hnodup`
reflects uniqueness of the projected `task_id` column.) -/
theorem c10_self_dependency_starvation (s : AtcState) (t : Task) (n : Int)
    (hnodup : (s.queue.map (fun u => u.id)).Nodup) (ht : t ∈ s.queue)
    (hdep : t.dependency_sample_number = some n) (hsn : t.sample_number = some n) :
    t ∈ (resultState (queue_execute_one_item s)).queue ∧
    (t ∈ (resultState (queue_execute_one_item s)).active_tasks →
      t ∈ s.active_tasks) := by
  rcases qeoiLoop_self_dep (s.queue.length + taskPriorityBands.length + 1) s
    taskPriorityBands [] t n hnodup ht hdep hsn with ⟨h1, h2⟩
  refine ⟨h1, fun hmem => ?_⟩
  rcases h2 t hmem with h | h
  · exact h
  · exact absurd rfl h

/-- C10 witness: the self-dependent task in `c10State` survives the dispatch
call in the scheduled store. -/
theorem c10_self_dependency_starvation_witness :
    c10Task ∈ (resultState (queue_execute_one_item c10State)).queue :=
  (c10_self_dependency_starvation c10State c10Task 3 (by decide) (by decide)
    (by decide) (by decide)).1

/-- C6.  Contract of the spec-modelled `queue_cancel(task_id, include_active,
drop_material)`: a stored id is found and the cancelled task (carrying that
id) is returned, otherwise `None`; the task is removed from the scheduled
store; with `include_active` also from the active store; with
`drop_material` every channel-occupancy slot referencing the cancelled task
is cleared. -/
theorem c6_queue_cancel_contract (s : AtcState) (task_id : Nat) (ia dm : Bool) :
    ((∃ t, getTaskById s.queue task_id = some t) ∨
        (ia = true ∧ ∃ t, getTaskById s.active_tasks task_id = some t) →
      (queue_cancel s task_id ia dm).1 ≠ none) ∧
    (∀ u ∈ (queue_cancel s task_id ia dm).2.queue, u.id ≠ task_id) ∧
    (ia = true → ∀ u ∈ (queue_cancel s task_id ia dm).2.active_tasks,
      u.id ≠ task_id) ∧
    (dm = true → (queue_cancel s task_id ia dm).1 ≠ none →
      ∀ kv ∈ (queue_cancel s task_id ia dm).2.channel_po, ∀ slot ∈ kv.2,
        ∀ u, slot = some u → u.id ≠ task_id) ∧
    ((queue_cancel s task_id ia dm).1 = none ∨
      ∃ t, (queue_cancel s task_id ia dm).1 = some t ∧ t.id = task_id) := by
  unfold queue_cancel
  dsimp only
  cases hq : getTaskById s.queue task_id with
  | some t =>
    dsimp only
    have htid : t.id = task_id := (getTaskById_some hq).2
    refine ⟨fun _ => by simp, ?_, ?_, ?_, Or.inr ⟨t, rfl, htid⟩⟩
    · intro u hu
      rw [mem_containerRemove] at hu
      exact hu.2
    · intro hia u hu
      rw [hia, if_pos rfl, mem_containerRemove] at hu
      exact hu.2
    · intro hdm _ kv hkv slot hslot u hu
      rw [hdm, if_pos rfl, List.mem_map] at hkv
      obtain ⟨kv0, -, hkveq⟩ := hkv
      subst hkveq
      dsimp only at hslot
      rw [List.mem_map] at hslot
      obtain ⟨slot0, -, hsloteq⟩ := hslot
      intro hid
      rcases hs0 : slot0 with _ | v
      · rw [hs0] at hsloteq
        rw [← hsloteq] at hu
        simp at hu
      · rw [hs0] at hsloteq
        dsimp only at hsloteq
        by_cases hv : v.id = task_id
        · rw [if_pos hv] at hsloteq
          rw [← hsloteq] at hu
          simp at hu
        · rw [if_neg hv] at hsloteq
          rw [← hsloteq, Option.some_inj] at hu
          rw [hu] at hv
          exact hv hid
  | none =>
    cases ia with
    | false =>
      refine ⟨?_, ?_, ?_, ?_, Or.inl rfl⟩
      · rintro (⟨t, htq⟩ | ⟨hia2, _⟩)
        · exact absurd htq (by simp)
        · exact absurd hia2 (by simp)
      · intro u hu
        exact (getTaskById_eq_none.mp hq) u hu
      · intro hcontra; exact absurd hcontra (by simp)
      · intro _ hcontra; exact absurd rfl hcontra
    | true =>
      cases ha : getTaskById s.active_tasks task_id with
      | none =>
        refine ⟨?_, ?_, ?_, ?_, Or.inl rfl⟩
        · rintro (⟨t, htq⟩ | ⟨-, t, hta⟩)
          · exact absurd htq (by simp)
          · exact absurd hta (by simp)
        · intro u hu
          exact (getTaskById_eq_none.mp hq) u hu
        · intro _ u hu
          exact (getTaskById_eq_none.mp ha) u hu
        · intro _ hcontra; exact absurd rfl hcontra
      | some t =>
        simp only [reduceIte]
        have htid : t.id = task_id := (getTaskById_some ha).2
        refine ⟨fun _ => by simp, ?_, ?_, ?_, Or.inr ⟨t, rfl, htid⟩⟩
        · intro u hu
          rw [mem_containerRemove] at hu
          exact hu.2
        · intro _ u hu
          rw [mem_containerRemove] at hu
          exact hu.2
        · intro hdm _ kv hkv slot hslot u hu
          rw [hdm, if_pos rfl, List.mem_map] at hkv
          obtain ⟨kv0, -, hkveq⟩ := hkv
          subst hkveq
          dsimp only at hslot
          rw [List.mem_map] at hslot
          obtain ⟨slot0, -, hsloteq⟩ := hslot
          intro hid
          rcases hs0 : slot0 with _ | v
          · rw [hs0] at hsloteq
            rw [← hsloteq] at hu
            simp at hu
          · rw [hs0] at hsloteq
            dsimp only at hsloteq
            by_cases hv : v.id = task_id
            · rw [if_pos hv] at hsloteq
              rw [← hsloteq] at hu
              simp at hu
            · rw [if_neg hv] at hsloteq
              rw [← hsloteq, Option.some_inj] at hu
              rw [hu] at hv
              exact hv hid

/-- C6 witness: cancelling the scheduled task of `c6State` with both flags
set returns it. -/
theorem c6_queue_cancel_contract_witness :
    (queue_cancel c6State 5 true true).1 ≠ none :=
  (c6_queue_cancel_contract c6State 5 true true).1
    (Or.inl ⟨c6Scheduled, by decide⟩)

/-- C4 counterexample.  In `c4State` the device `lh` is in `reuse` mode and
channel 1 is free (channel 0 is used by sample 7's active task) — the claim
demands a channel be assigned from the sample's history, or the call fail
only when no channel is free at all.  Instead, the history lookup
`sample_history.find_channels(sample_number, device)` raises
`sqlite3.ProgrammingError` (`task_container.py:108` passes the bare int `7`
to `cursor.execute`), so `find_free_channels` crashes before any reuse
selection: no channel is assigned and neither failure message is returned. -/
theorem c4_reuse_counterexample :
    c4Device.channel_mode = some "reuse" ∧
    (get_channel_occupancy c4State "lh").1 = [1] ∧
    findChannels c4State.sample_history (some 7) (some "lh") =
      Except.error PyError.programmingError ∧
    find_free_channels c4State c4Subtask (some 7) =
      Except.error PyError.programmingError := by
  exact ⟨by decide, by decide, rfl, rfl⟩

/-- C4 (amended).  `find_free_channels` under `channel_mode = 'reuse'` with a
non-`None` sample number: when the device has no free channel at all, it
returns the 'No free channels available.' failure (this check precedes the
history lookup); in every other case the call raises
`sqlite3.ProgrammingError` out of `find_channels` before the reuse selection
runs — no channel is ever assigned and no reuse-specific failure is ever
returned. -/
theorem c4_reuse_amended (s : AtcState) (st : TaskData) (m : Int) (d : Device)
    (hd : get_device_object s st.device = some d)
    (hm : d.channel_mode = some "reuse") :
    ((get_channel_occupancy s st.device).1 = [] →
      find_free_channels s st (some m) =
        Except.ok (false, st, "No free channels available.")) ∧
    ((get_channel_occupancy s st.device).1 ≠ [] →
      find_free_channels s st (some m) =
        Except.error PyError.programmingError) := by
  constructor
  · intro hfe
    unfold find_free_channels
    rw [hd]
    dsimp only
    rw [hfe]
  · intro hfn
    unfold find_free_channels
    rw [hd]
    dsimp only
    cases hfree : (get_channel_occupancy s st.device).1 with
    | nil => exact absurd hfree hfn
    | cons f0 fs =>
      dsimp only
      rw [hm]
      rfl

/-- C4 witness: in `c4StateFresh` both channels of the reuse-mode device are
free, yet the lookup for sample 7 raises before any channel is assigned. -/
theorem c4_reuse_amended_witness :
    find_free_channels c4StateFresh c4Subtask (some 7) =
      Except.error PyError.programmingError :=
  (c4_reuse_amended c4StateFresh c4Subtask 7 c4Device rfl rfl).2 (by decide)

/-- C5.  In `pre_process_measure`'s channel auto-selection the comparison
`cpol[best_channel].priority > cpol[i].priority` keeps the occupant with the
*lowest* priority value, contradicting the claim (and the source's own
comment) that the highest-priority occupant wins: in `c5State` both slots of
`qcmd1` hold sample 4, slot 1's occupant has the strictly higher priority
value, yet the handler selects channel 0. -/
theorem c5_measure_selects_lowest_priority :
    c5TaskLow.sample_number = some 4 ∧ c5TaskHigh.sample_number = some 4 ∧
    c5Measure.sample_number = some 4 ∧
    priGt c5TaskHigh.priority c5TaskLow.priority = true ∧
    alistGet c5State.channel_po "qcmd1" = some [some c5TaskLow, some c5TaskHigh] ∧
    (pre_process_measure c5State c5Measure).1 = true ∧
    (pre_process_measure c5State c5Measure).2.1.tasks.map
      (fun st => st.channel) = [some 0] := by
  exact ⟨by decide, by decide, by decide, by decide, by decide, by decide, by decide⟩

/-- C7.  `queue_put` returns the two-tuple `(success, message)` — not the
four-tuple `(ok, task_id, sample_number, message)` the claim (and the
`server.py` caller, which unpacks four values) expects.  Evaluated at a
plain first submission: the full return value is
`(True, 'Task succesfully enqueued.')` and the task is enqueued. -/
theorem c7_queue_put_returns_two_tuple :
    (queue_put initialState c7Task 42 0).1 = (true, "Task succesfully enqueued.") ∧
    (queue_put initialState c7Task 42 0).2.queue.map (fun t => t.id) = [1] := by
  exact ⟨by decide, by decide⟩

/-- C8.  Frame of `reset`/`restart`: both clear the scheduled store, the
active store, every channel-occupancy slot (device keys and slot counts are
kept) and the sample-id map; `reset` keeps the device registry, `restart`
additionally clears it; both leave the history store exactly unchanged. -/
theorem c8_reset_restart_frame (s : AtcState) :
    (reset s).queue = [] ∧ (reset s).active_tasks = [] ∧
    (reset s).channel_po = s.channel_po.map (fun kv => (kv.1, kv.2.map (fun _ => none))) ∧
    (reset s).sample_id_to_number = [] ∧
    (reset s).devices = s.devices ∧
    (reset s).sample_history = s.sample_history ∧
    (restart s).queue = [] ∧ (restart s).active_tasks = [] ∧
    (restart s).channel_po = s.channel_po.map (fun kv => (kv.1, kv.2.map (fun _ => none))) ∧
    (restart s).sample_id_to_number = [] ∧
    (restart s).devices = [] ∧
    (restart s).sample_history = s.sample_history :=
  ⟨rfl, rfl, rfl, rfl, rfl, rfl, rfl, rfl, rfl, rfl, rfl, rfl⟩

/-- C9.  Dispatch failure is not atomic with the channel-occupancy table: in
`c9State` the scheduled measure task (id 40) presets in-range channel 0 of
`qcmd1` whose slot is empty, `pre_process_measure` claims the slot, the
interference check against the active measure (id 30) on the same
`(device, channel)` then fails the dispatch — the call returns `False`, the
task is still in the scheduled store, the active store is unchanged, and the
occupancy slot keeps referencing task 40. -/
theorem c9_occupancy_write_not_rolled_back :
    alistGet c9State.channel_po "qcmd1" = some [none] ∧
    findInterference c9State.active_tasks c9Measure = true ∧
    resultFlag (queue_execute_one_item c9State) = some false ∧
    getTaskById (resultState (queue_execute_one_item c9State)).queue 40 =
      some c9Measure ∧
    (resultState (queue_execute_one_item c9State)).active_tasks = [c9Active] ∧
    alistGet (resultState (queue_execute_one_item c9State)).channel_po "qcmd1" =
      some [some c9Measure] := by
  exact ⟨by decide, by decide, by decide, by decide, by decide, by decide⟩

end Autocontrol
